import Mathlib

/-!
# MapPhase: the per-tick update of one phase of a map and its deferred cell relocation

A shallow embedding of `src/server/game/Maps/MapPhase.cpp` / `MapPhase.h`.

* Objects live in a heap `Guid → WorldObject`; a C++ pointer is a `Guid`, a null pointer is
  `none`.
* Every function returns the new state together with the list of calls it issued on its
  collaborators (`Call`), in program order.
* A `float` of the source (a coordinate, the activation range) is carried as an `Int`. The
  drains only copy coordinates.  The float arithmetic and the float comparison of `Update`
  (MapPhase.cpp 118-125) are parameters of the embedding (`Collab.floatSub`,
  `Collab.floatMul`, `Collab.floatGt`, `Collab.GetExactDist2dSq`), so nothing is assumed
  about rounding; the examples instantiate them with single-precision arithmetic on
  integer values (`roundFloat32`).
* The collaborators whose bodies are outside the two files are either parameters (`Collab`) or
  are modelled from the specification; each such definition says so.
* The calls `Update` makes before the drains (sessions, player updates, nearby-cell visits,
  transport updates) run arbitrary object logic: their effects are arbitrary functions on
  the state.
* The calls a drain makes on the object it relocates (`UpdatePositionData`,
  `UpdateObjectVisibility`, `UpdateModelPosition`, `RelocatePassengers`, `Pet::Remove`,
  `AddObjectToRemoveList`) are recorded in the trace; they do not write the fields of
  `WorldObject` that the drains read.  The result of a cell relocation depends on the object
  and the cell only.
* A loop walks its container as it is when the loop starts; the iterator members that let
  collaborators erase from a container under iteration are not modelled.
-/

/-- An object pointer. -/
abbrev Guid := Nat

/-- A `Map*`. -/
abbrev MapId := Nat

/-- The `Position` of an object: `m_positionX`, `m_positionY`, `m_positionZ`, orientation. -/
structure Position where
  m_positionX : Int
  m_positionY : Int
  m_positionZ : Int
  m_orientation : Int
deriving DecidableEq, Repr

/-- A grid cell, as built by `Cell(x, y)`. -/
structure Cell where
  x : Int
  y : Int
deriving DecidableEq, Repr

/-- The values of `_moveState`. The enum is declared outside the two files. NONE and ACTIVE
are the two constants the drains name and the two values the specification lists; the
drains test `!= MAP_OBJECT_CELL_MOVE_ACTIVE` before they assign NONE, so the flag takes
other values as well, and INACTIVE stands for any of them. -/
inductive ObjectCellMoveState where
  | MAP_OBJECT_CELL_MOVE_NONE
  | MAP_OBJECT_CELL_MOVE_ACTIVE
  | MAP_OBJECT_CELL_MOVE_INACTIVE
deriving DecidableEq, Repr

/-- The save mode handed to `Pet::Remove`.  The enum is declared outside the two files; the
drain names `PET_SAVE_NOT_IN_SLOT` only, `PET_SAVE_AS_CURRENT` stands for the other modes. -/
inductive PetSaveMode where
  | PET_SAVE_AS_CURRENT
  | PET_SAVE_NOT_IN_SLOT
deriving DecidableEq, Repr

/-- The static type of the pointer a drain works on. -/
inductive Kind where
  | creature
  | gameObject
  | dynamicObject
deriving DecidableEq, Repr

/-- What the update and the drains read from and write to an object.  The first block is
common to every object queued for a move, the second is read for players only. -/
structure WorldObject where
  /-- Whether `ToCreature()` is not null. -/
  isCreature : Bool
  /-- The result of `IsPet()`. -/
  isPet : Bool
  /-- The result of `IsVehicle()`. -/
  isVehicle : Bool
  /-- The result of `FindMap()`, `none` for a null pointer. -/
  map : Option MapId
  /-- The result of `IsInWorld()`. -/
  inWorld : Bool
  /-- The current position, written by `Relocate`. -/
  position : Position
  _moveState : ObjectCellMoveState
  _newPosition : Position
  /-- The respawn coordinates (`GetRespawnPosition`). -/
  respawnPosition : Position
  /-- The result of `GetViewpoint()`, `none` for a null pointer. -/
  viewpoint : Option Guid
  /-- The result of `IsInCombat()`. -/
  inCombat : Bool
  /-- The result of `GetGridActivationRange()`. -/
  gridActivationRange : Int
  /-- The hostile references of `getHostileRefMgr()`, first to last; each entry is
  `ref->GetSource()->GetOwner()`, `none` when that is null. -/
  hostileRefs : List (Option Guid)

/-- The members of `class MapPhase` (MapPhase.h), the iterators left out: a loop of the
embedding walks the container as it is when the loop starts. -/
structure MapPhase where
  _map : MapId
  _phaseMask : Nat
  m_activeNonPlayers : List (Option Guid)
  _transports : List Guid
  _creatureToMoveLock : Bool
  _creaturesToMove : List Guid
  _gameObjectsToMoveLock : Bool
  _gameObjectsToMove : List Guid
  _dynamicObjectsToMoveLock : Bool
  _dynamicObjectsToMove : List Guid
  m_mapRefMgr : List (Option Guid)

/-- The phase together with the objects its pointers reach. -/
structure State where
  phase : MapPhase
  objs : Guid → WorldObject

/-- A call issued on a collaborator, or one of the three drains being entered. -/
inductive Call where
  | dynamicTreeUpdate (t_diff : Nat)
  | sessionUpdate (player : Guid) (s_diff : Nat)
  | playerUpdate (player : Guid) (s_diff : Nat)
  | VisitNearbyCellsOf (obj : Guid)
  | transportUpdate (transport : Guid) (t_diff : Nat)
  | MoveAllCreaturesInMoveList
  | MoveAllGameObjectsInMoveList
  | MoveAllDynamicObjectsInMoveList
  | CreatureCellRelocation (c : Guid) (cell : Cell)
  | GameObjectCellRelocation (go : Guid) (cell : Cell)
  | DynamicObjectCellRelocation (dynObj : Guid) (cell : Cell)
  | CreatureRespawnRelocation (c : Guid) (diffGridOnly : Bool)
  | GameObjectRespawnRelocation (go : Guid) (diffGridOnly : Bool)
  | Relocate (k : Kind) (obj : Guid) (pos : Position)
  | RelocatePassengers (c : Guid)
  | UpdateModelPosition (go : Guid)
  | UpdatePositionData (k : Kind) (obj : Guid)
  | UpdateObjectVisibility (k : Kind) (obj : Guid) (forced : Bool)
  | PetRemove (c : Guid) (mode : PetSaveMode) (returnreagent : Bool)
  | AddObjectToRemoveList (k : Kind) (obj : Guid)
deriving DecidableEq, Repr

/-- The collaborators whose bodies are outside the two files, as parameters.

* `mkCell x y` is the constructor `Cell(x, y)`.
* The three `...CellRelocation` fields are the boolean results of the parent map's cell
  relocation primitives; the grid membership they maintain is the parent map's own state and
  is not part of `State`.
* `floatOne`, `floatSub`, `floatMul` and `floatGt` are the constant `1.0f` and the `float`
  operations `-`, `*` and `>` of MapPhase.cpp 118-125; `GetExactDist2dSq a b` is the `float`
  that `a.GetExactDist2dSq(b)` returns.
* The remaining fields are the effects of the calls `Update` makes before the drains. They
  run object logic of any kind, so they may change the state freely. -/
structure Collab where
  mkCell : Int → Int → Cell
  CreatureCellRelocation : Guid → Cell → Bool
  GameObjectCellRelocation : Guid → Cell → Bool
  DynamicObjectCellRelocation : Guid → Cell → Bool
  floatOne : Int
  floatSub : Int → Int → Int
  floatMul : Int → Int → Int
  floatGt : Int → Int → Bool
  GetExactDist2dSq : Position → Position → Int
  dynamicTreeUpdate : Nat → State → State
  sessionUpdate : Guid → Nat → State → State
  playerUpdate : Guid → Nat → State → State
  VisitNearbyCellsOf : Guid → State → State
  transportUpdate : Guid → Nat → State → State

/-- The assignment `obj->_moveState = ms`. -/
def State.setMoveState (s : State) (obj : Guid) (ms : ObjectCellMoveState) : State :=
  { s with objs := Function.update s.objs obj { s.objs obj with _moveState := ms } }

/-- Modelled from the spec: `obj->Relocate(pos)` commits `pos` as the current position. -/
def State.Relocate (s : State) (obj : Guid) (pos : Position) : State :=
  { s with objs := Function.update s.objs obj { s.objs obj with position := pos } }

/-- A loop over a container: the body runs on each element in order, the calls are
concatenated. -/
def forEach {α : Type} (body : α → State → State × List Call) :
    List α → State → State × List Call
  | [], s => (s, [])
  | a :: rest, s =>
    let r := body a s
    let r2 := forEach body rest r.1
    (r2.1, r.2 ++ r2.2)

/-- Modelled from the spec: `Map::CreatureRespawnRelocation(c, false)`, the fallback
relocation to the respawn location. It asks for the cell of the respawn coordinates; on
success it commits the respawn coordinates, refreshes the position-derived data and the
visibility (not forced) and returns true; otherwise it returns false and changes nothing. -/
def CreatureRespawnRelocation (E : Collab) (c : Guid) (diffGridOnly : Bool) (s : State) :
    Bool × State × List Call :=
  let resp := (s.objs c).respawnPosition
  if E.CreatureCellRelocation c (E.mkCell resp.m_positionX resp.m_positionY) then
    (true, s.Relocate c resp,
      [Call.CreatureRespawnRelocation c diffGridOnly, Call.Relocate Kind.creature c resp,
       Call.UpdatePositionData Kind.creature c,
       Call.UpdateObjectVisibility Kind.creature c false])
  else
    (false, s, [Call.CreatureRespawnRelocation c diffGridOnly])

/-- Modelled from the spec: `Map::GameObjectRespawnRelocation(go, false)`, as
`CreatureRespawnRelocation` for a game object. -/
def GameObjectRespawnRelocation (E : Collab) (go : Guid) (diffGridOnly : Bool) (s : State) :
    Bool × State × List Call :=
  let resp := (s.objs go).respawnPosition
  if E.GameObjectCellRelocation go (E.mkCell resp.m_positionX resp.m_positionY) then
    (true, s.Relocate go resp,
      [Call.GameObjectRespawnRelocation go diffGridOnly, Call.Relocate Kind.gameObject go resp,
       Call.UpdatePositionData Kind.gameObject go,
       Call.UpdateObjectVisibility Kind.gameObject go false])
  else
    (false, s, [Call.GameObjectRespawnRelocation go diffGridOnly])

namespace MapPhase

/-- The body of the loop of `MapPhase::MoveAllCreaturesInMoveList` (MapPhase.cpp 155-201). -/
def moveCreature (E : Collab) (c : Guid) (s : State) : State × List Call :=
  if (s.objs c).map ≠ some s.phase._map then
    (s, [])
  else if (s.objs c)._moveState ≠ ObjectCellMoveState.MAP_OBJECT_CELL_MOVE_ACTIVE then
    (s.setMoveState c ObjectCellMoveState.MAP_OBJECT_CELL_MOVE_NONE, [])
  else
    let s1 := s.setMoveState c ObjectCellMoveState.MAP_OBJECT_CELL_MOVE_NONE
    if !(s1.objs c).inWorld then
      (s1, [])
    else
      let np := (s1.objs c)._newPosition
      let cell := E.mkCell np.m_positionX np.m_positionY
      if E.CreatureCellRelocation c cell then
        (s1.Relocate c np,
          [Call.CreatureCellRelocation c cell, Call.Relocate Kind.creature c np]
            ++ (if (s1.objs c).isVehicle then [Call.RelocatePassengers c] else [])
            ++ [Call.UpdatePositionData Kind.creature c,
                Call.UpdateObjectVisibility Kind.creature c false])
      else
        let r := CreatureRespawnRelocation E c false s1
        if !r.1 then
          if (r.2.1.objs c).isPet then
            (r.2.1, Call.CreatureCellRelocation c cell :: r.2.2
              ++ [Call.PetRemove c PetSaveMode.PET_SAVE_NOT_IN_SLOT true])
          else
            (r.2.1, Call.CreatureCellRelocation c cell :: r.2.2
              ++ [Call.AddObjectToRemoveList Kind.creature c])
        else
          (r.2.1, Call.CreatureCellRelocation c cell :: r.2.2)

/-- The drain `MapPhase::MoveAllCreaturesInMoveList` (MapPhase.cpp 150-205). -/
def MoveAllCreaturesInMoveList (E : Collab) (s : State) : State × List Call :=
  let s1 : State := { s with phase := { s.phase with _creatureToMoveLock := true } }
  let r := forEach (moveCreature E) s1.phase._creaturesToMove s1
  ({ r.1 with phase := { r.1.phase with _creaturesToMove := [], _creatureToMoveLock := false } },
    r.2)

/-- The body of the loop of `MapPhase::MoveAllGameObjectsInMoveList` (MapPhase.cpp 212-247). -/
def moveGameObject (E : Collab) (go : Guid) (s : State) : State × List Call :=
  if (s.objs go).map ≠ some s.phase._map then
    (s, [])
  else if (s.objs go)._moveState ≠ ObjectCellMoveState.MAP_OBJECT_CELL_MOVE_ACTIVE then
    (s.setMoveState go ObjectCellMoveState.MAP_OBJECT_CELL_MOVE_NONE, [])
  else
    let s1 := s.setMoveState go ObjectCellMoveState.MAP_OBJECT_CELL_MOVE_NONE
    if !(s1.objs go).inWorld then
      (s1, [])
    else
      let np := (s1.objs go)._newPosition
      let cell := E.mkCell np.m_positionX np.m_positionY
      if E.GameObjectCellRelocation go cell then
        (s1.Relocate go np,
          [Call.GameObjectCellRelocation go cell, Call.Relocate Kind.gameObject go np,
           Call.UpdateModelPosition go, Call.UpdatePositionData Kind.gameObject go,
           Call.UpdateObjectVisibility Kind.gameObject go false])
      else
        let r := GameObjectRespawnRelocation E go false s1
        if !r.1 then
          (r.2.1, Call.GameObjectCellRelocation go cell :: r.2.2
            ++ [Call.AddObjectToRemoveList Kind.gameObject go])
        else
          (r.2.1, Call.GameObjectCellRelocation go cell :: r.2.2)

/-- The drain `MapPhase::MoveAllGameObjectsInMoveList` (MapPhase.cpp 207-251). -/
def MoveAllGameObjectsInMoveList (E : Collab) (s : State) : State × List Call :=
  let s1 : State := { s with phase := { s.phase with _gameObjectsToMoveLock := true } }
  let r := forEach (moveGameObject E) s1.phase._gameObjectsToMove s1
  ({ r.1 with
      phase := { r.1.phase with _gameObjectsToMove := [], _gameObjectsToMoveLock := false } },
    r.2)

/-- The body of the loop of `MapPhase::MoveAllDynamicObjectsInMoveList`
(MapPhase.cpp 258-285). The `else` branch of the relocation holds a debug log only. -/
def moveDynamicObject (E : Collab) (dynObj : Guid) (s : State) : State × List Call :=
  if (s.objs dynObj).map ≠ some s.phase._map then
    (s, [])
  else if (s.objs dynObj)._moveState ≠ ObjectCellMoveState.MAP_OBJECT_CELL_MOVE_ACTIVE then
    (s.setMoveState dynObj ObjectCellMoveState.MAP_OBJECT_CELL_MOVE_NONE, [])
  else
    let s1 := s.setMoveState dynObj ObjectCellMoveState.MAP_OBJECT_CELL_MOVE_NONE
    if !(s1.objs dynObj).inWorld then
      (s1, [])
    else
      let np := (s1.objs dynObj)._newPosition
      let cell := E.mkCell np.m_positionX np.m_positionY
      if E.DynamicObjectCellRelocation dynObj cell then
        (s1.Relocate dynObj np,
          [Call.DynamicObjectCellRelocation dynObj cell,
           Call.Relocate Kind.dynamicObject dynObj np,
           Call.UpdatePositionData Kind.dynamicObject dynObj,
           Call.UpdateObjectVisibility Kind.dynamicObject dynObj false])
      else
        (s1, [Call.DynamicObjectCellRelocation dynObj cell])

/-- The drain `MapPhase::MoveAllDynamicObjectsInMoveList` (MapPhase.cpp 253-290). -/
def MoveAllDynamicObjectsInMoveList (E : Collab) (s : State) : State × List Call :=
  let s1 : State := { s with phase := { s.phase with _dynamicObjectsToMoveLock := true } }
  let r := forEach (moveDynamicObject E) s1.phase._dynamicObjectsToMove s1
  ({ r.1 with
      phase := { r.1.phase with
        _dynamicObjectsToMove := [], _dynamicObjectsToMoveLock := false } },
    r.2)

/-- The first loop of `Update` (MapPhase.cpp 60-70): the session of every player that is
in world is updated. -/
def updateSession (E : Collab) (s_diff : Nat) (ref : Option Guid) (s : State) :
    State × List Call :=
  match ref with
  | some player =>
    if (s.objs player).inWorld then
      (E.sessionUpdate player s_diff s, [Call.sessionUpdate player s_diff])
    else
      (s, [])
  | none => (s, [])

/-- The body of the loop over `m_activeNonPlayers` (MapPhase.cpp 87-93). -/
def visitActiveNonPlayer (E : Collab) (ref : Option Guid) (s : State) : State × List Call :=
  match ref with
  | some obj =>
    if !(s.objs obj).inWorld then
      (s, [])
    else
      (E.VisitNearbyCellsOf obj s, [Call.VisitNearbyCellsOf obj])
  | none => (s, [])

/-- The `while (ref)` walk over the hostile references of `player` (MapPhase.cpp 120-128),
giving what it pushes on `updateList`, in order. The comparison
`cre->GetExactDist2dSq(player) > rangeSq` is the `float` comparison `floatGt`. -/
def collectFarCreatures (E : Collab) (s : State) (player : Guid) (rangeSq : Int) :
    List (Option Guid) → List Guid
  | [] => []
  | none :: rest => collectFarCreatures E s player rangeSq rest
  | some unit :: rest =>
    if (s.objs unit).isCreature then
      if (s.objs unit).map = (s.objs player).map
          ∧ E.floatGt (E.GetExactDist2dSq (s.objs unit).position (s.objs player).position)
              rangeSq = true then
        unit :: collectFarCreatures E s player rangeSq rest
      else
        collectFarCreatures E s player rangeSq rest
    else
      collectFarCreatures E s player rangeSq rest

/-- The `float` that `Update` holds in `rangeSq` for `player` at state `s`
(MapPhase.cpp 118-119): `GetGridActivationRange() - 1.0f`, multiplied by itself. -/
def rangeSq (E : Collab) (s : State) (player : Guid) : Int :=
  let rangeSq := E.floatSub (s.objs player).gridActivationRange E.floatOne
  E.floatMul rangeSq rangeSq

/-- The `updateList` of `player` as `Update` fills it at state `s` (MapPhase.cpp 117-128). -/
def updateList (E : Collab) (s : State) (player : Guid) : List Guid :=
  collectFarCreatures E s player (rangeSq E s player) (s.objs player).hostileRefs

/-- One nearby-cell visit, as a loop body. -/
def visitOne (E : Collab) (obj : Guid) (s : State) : State × List Call :=
  (E.VisitNearbyCellsOf obj s, [Call.VisitNearbyCellsOf obj])

/-- The first part of the body of the player loop (MapPhase.cpp 105-112): the player's own
update, the visit around the player and the visit around its viewpoint. -/
def updatePlayerAndVisit (E : Collab) (s_diff : Nat) (player : Guid) (s : State) :
    State × List Call :=
  let s1 := E.playerUpdate player s_diff s
  let s2 := E.VisitNearbyCellsOf player s1
  match (s2.objs player).viewpoint with
  | some viewPoint =>
    (E.VisitNearbyCellsOf viewPoint s2,
      [Call.playerUpdate player s_diff, Call.VisitNearbyCellsOf player,
       Call.VisitNearbyCellsOf viewPoint])
  | none => (s2, [Call.playerUpdate player s_diff, Call.VisitNearbyCellsOf player])

/-- The last part of the body of the player loop (MapPhase.cpp 114-131): the visits around
the far creatures in combat with the player. -/
def visitFarCreatures (E : Collab) (player : Guid) (s : State) : State × List Call :=
  if (s.objs player).inCombat then
    forEach (visitOne E) (updateList E s player) s
  else
    (s, [])

/-- The body of the player loop (MapPhase.cpp 100-131). -/
def updatePlayer (E : Collab) (s_diff : Nat) (ref : Option Guid) (s : State) :
    State × List Call :=
  match ref with
  | some player =>
    if !(s.objs player).inWorld then
      (s, [])
    else
      let r := updatePlayerAndVisit E s_diff player s
      let r2 := visitFarCreatures E player r.1
      (r2.1, r.2 ++ r2.2)
  | none => (s, [])

/-- The body of the transport loop (MapPhase.cpp 136-142). -/
def updateTransport (E : Collab) (t_diff : Nat) (transport : Guid) (s : State) :
    State × List Call :=
  if !(s.objs transport).inWorld then
    (s, [])
  else
    (E.transportUpdate transport t_diff s, [Call.transportUpdate transport t_diff])

/-- The steps of `Update` before the player loop (MapPhase.cpp 56-94): the dynamic tree,
the sessions, the visits around the active non-player objects. -/
def updateNonPlayers (E : Collab) (t_diff s_diff : Nat) (s : State) : State × List Call :=
  let r0 : State × List Call :=
    if t_diff ≠ 0 then (E.dynamicTreeUpdate t_diff s, [Call.dynamicTreeUpdate t_diff])
    else (s, [])
  let r1 := forEach (updateSession E s_diff) r0.1.phase.m_mapRefMgr r0.1
  let r2 := forEach (visitActiveNonPlayer E) r1.1.phase.m_activeNonPlayers r1.1
  (r2.1, r0.2 ++ r1.2 ++ r2.2)

/-- The tick `MapPhase::Update` (MapPhase.cpp 54-148); its third parameter `thread` is
unused in the source. -/
def Update (E : Collab) (t_diff s_diff : Nat) (s : State) : State × List Call :=
  let r2 := updateNonPlayers E t_diff s_diff s
  let r3 := forEach (updatePlayer E s_diff) r2.1.phase.m_mapRefMgr r2.1
  let r4 := forEach (updateTransport E t_diff) r3.1.phase._transports r3.1
  let r5 := MoveAllCreaturesInMoveList E r4.1
  let r6 := MoveAllGameObjectsInMoveList E r5.1
  let r7 := MoveAllDynamicObjectsInMoveList E r6.1
  (r7.1,
    r2.2 ++ r3.2 ++ r4.2
      ++ Call.MoveAllCreaturesInMoveList :: r5.2
      ++ Call.MoveAllGameObjectsInMoveList :: r6.2
      ++ Call.MoveAllDynamicObjectsInMoveList :: r7.2)

/-- The loop body of the drain of each kind. -/
def moveObject : Kind → Collab → Guid → State → State × List Call
  | Kind.creature => moveCreature
  | Kind.gameObject => moveGameObject
  | Kind.dynamicObject => moveDynamicObject

/-- The drain of each kind. -/
def drain : Kind → Collab → State → State × List Call
  | Kind.creature => MoveAllCreaturesInMoveList
  | Kind.gameObject => MoveAllGameObjectsInMoveList
  | Kind.dynamicObject => MoveAllDynamicObjectsInMoveList

/-- The move list of each kind. -/
def moveList : Kind → MapPhase → List Guid
  | Kind.creature => _creaturesToMove
  | Kind.gameObject => _gameObjectsToMove
  | Kind.dynamicObject => _dynamicObjectsToMove

/-- The reentrancy guard of the move list of each kind. -/
def moveLock : Kind → MapPhase → Bool
  | Kind.creature => _creatureToMoveLock
  | Kind.gameObject => _gameObjectsToMoveLock
  | Kind.dynamicObject => _dynamicObjectsToMoveLock

/-- The result of the cell relocation primitive of each kind. -/
def cellRelocation : Kind → Collab → Guid → Cell → Bool
  | Kind.creature => Collab.CreatureCellRelocation
  | Kind.gameObject => Collab.GameObjectCellRelocation
  | Kind.dynamicObject => Collab.DynamicObjectCellRelocation

/-- The cell of the pending position of `obj`, as the drains build it:
`Cell(obj->_newPosition.m_positionX, obj->_newPosition.m_positionY)`. -/
def newCell (E : Collab) (s : State) (obj : Guid) : Cell :=
  E.mkCell (s.objs obj)._newPosition.m_positionX (s.objs obj)._newPosition.m_positionY

/-- The cell of the respawn coordinates of `obj`. -/
def respawnCell (E : Collab) (s : State) (obj : Guid) : Cell :=
  E.mkCell (s.objs obj).respawnPosition.m_positionX (s.objs obj).respawnPosition.m_positionY

end MapPhase

/-- The object a call issued by a drain is about; `none` for the calls of `Update` itself. -/
def Call.movedObject : Call → Option Guid
  | Call.CreatureCellRelocation c _ => some c
  | Call.GameObjectCellRelocation go _ => some go
  | Call.DynamicObjectCellRelocation dynObj _ => some dynObj
  | Call.CreatureRespawnRelocation c _ => some c
  | Call.GameObjectRespawnRelocation go _ => some go
  | Call.Relocate _ obj _ => some obj
  | Call.RelocatePassengers c => some c
  | Call.UpdateModelPosition go => some go
  | Call.UpdatePositionData _ obj => some obj
  | Call.UpdateObjectVisibility _ obj _ => some obj
  | Call.PetRemove c _ _ => some c
  | Call.AddObjectToRemoveList _ obj => some obj
  | _ => none

/-- The calls of a trace that are about `obj`, in order. -/
def callsAbout (obj : Guid) (trace : List Call) : List Call :=
  trace.filter (fun ev => decide (ev.movedObject = some obj))

/-- Whether a call is a placement primitive of the parent map: a cell relocation or a respawn
relocation. -/
def Call.isPlacement : Call → Bool
  | Call.CreatureCellRelocation _ _ => true
  | Call.GameObjectCellRelocation _ _ => true
  | Call.DynamicObjectCellRelocation _ _ => true
  | Call.CreatureRespawnRelocation _ _ => true
  | Call.GameObjectRespawnRelocation _ _ => true
  | _ => false

/-- Whether a call is a respawn relocation. -/
def Call.isRespawnRelocation : Call → Bool
  | Call.CreatureRespawnRelocation _ _ => true
  | Call.GameObjectRespawnRelocation _ _ => true
  | _ => false

/-- The step of `Update` a call belongs to: 0 for the steps up to the player loop, 1 for the
transport loop, 2, 3 and 4 for the drains of creatures, game objects and dynamic objects. -/
def Call.stage : Call → Nat
  | Call.dynamicTreeUpdate _ => 0
  | Call.sessionUpdate _ _ => 0
  | Call.playerUpdate _ _ => 0
  | Call.VisitNearbyCellsOf _ => 0
  | Call.transportUpdate _ _ => 1
  | Call.MoveAllCreaturesInMoveList => 2
  | Call.MoveAllGameObjectsInMoveList => 3
  | Call.MoveAllDynamicObjectsInMoveList => 4
  | Call.CreatureCellRelocation _ _ => 2
  | Call.GameObjectCellRelocation _ _ => 3
  | Call.DynamicObjectCellRelocation _ _ => 4
  | Call.CreatureRespawnRelocation _ _ => 2
  | Call.GameObjectRespawnRelocation _ _ => 3
  | Call.Relocate Kind.creature _ _ => 2
  | Call.Relocate Kind.gameObject _ _ => 3
  | Call.Relocate Kind.dynamicObject _ _ => 4
  | Call.RelocatePassengers _ => 2
  | Call.UpdateModelPosition _ => 3
  | Call.UpdatePositionData Kind.creature _ => 2
  | Call.UpdatePositionData Kind.gameObject _ => 3
  | Call.UpdatePositionData Kind.dynamicObject _ => 4
  | Call.UpdateObjectVisibility Kind.creature _ _ => 2
  | Call.UpdateObjectVisibility Kind.gameObject _ _ => 3
  | Call.UpdateObjectVisibility Kind.dynamicObject _ _ => 4
  | Call.PetRemove _ _ _ => 2
  | Call.AddObjectToRemoveList Kind.creature _ => 2
  | Call.AddObjectToRemoveList Kind.gameObject _ => 3
  | Call.AddObjectToRemoveList Kind.dynamicObject _ => 4

/-- An object the drain of this phase leaves exactly as it is: it is on another map, or it
is on the map of the phase with move state NONE. -/
def Settled (s : State) (obj : Guid) : Prop :=
  (s.objs obj).map ≠ some s.phase._map
    ∨ (s.objs obj)._moveState = ObjectCellMoveState.MAP_OBJECT_CELL_MOVE_NONE

/-- What the three loop bodies of the drains have in common: a body leaves the phase alone,
touches the object it is given only, issues calls about that object only, reads nothing but
that object and the owning map, leaves the object settled and does nothing for a settled
object. -/
structure LocalBody (body : Guid → State → State × List Call) : Prop where
  phase_eq : ∀ x s, (body x s).1.phase = s.phase
  frame : ∀ x s e, e ≠ x → (body x s).1.objs e = s.objs e
  about : ∀ x s ev, ev ∈ (body x s).2 → ev.movedObject = some x
  dep : ∀ x s s', s.phase._map = s'.phase._map → s.objs x = s'.objs x →
    (body x s).1.objs x = (body x s').1.objs x ∧ (body x s).2 = (body x s').2
  settles : ∀ x s, Settled (body x s).1 x
  settled_noop : ∀ x s, Settled s x → (body x s).1.objs x = s.objs x ∧ (body x s).2 = []

/-- Whether a call hands `obj` to the deferred-removal list of the parent map. -/
def Call.isRemoveListOf (obj : Guid) : Call → Bool
  | Call.AddObjectToRemoveList _ o => decide (o = obj)
  | _ => false

/-- Whether a call is `Pet::Remove` on `obj`, in any save mode. -/
def Call.isPetRemoveOf (obj : Guid) : Call → Bool
  | Call.PetRemove c _ _ => decide (c = obj)
  | _ => false

/-! ## Example inputs -/

/-- An object with every flag off, at the origin, on no map. -/
def WorldObject.blank : WorldObject :=
  { isCreature := false, isPet := false, isVehicle := false, map := none, inWorld := false,
    position := ⟨0, 0, 0, 0⟩,
    _moveState := ObjectCellMoveState.MAP_OBJECT_CELL_MOVE_NONE,
    _newPosition := ⟨0, 0, 0, 0⟩, respawnPosition := ⟨0, 0, 0, 0⟩,
    viewpoint := none, inCombat := false, gridActivationRange := 0, hostileRefs := [] }

/-- A phase of map `m` with empty registries and empty move lists. -/
def MapPhase.blank (m : MapId) : MapPhase :=
  { _map := m, _phaseMask := 1, m_activeNonPlayers := [], _transports := [],
    _creatureToMoveLock := false, _creaturesToMove := [],
    _gameObjectsToMoveLock := false, _gameObjectsToMove := [],
    _dynamicObjectsToMoveLock := false, _dynamicObjectsToMove := [], m_mapRefMgr := [] }

/-- The number of low bits a natural number loses when it is cut to 24 significant bits;
`fuel` bounds the search and 128 is enough below 2^152. -/
def float32Shift : Nat → Nat → Nat
  | 0, _ => 0
  | fuel + 1, a => if a < 2 ^ 24 then 0 else float32Shift fuel (a / 2) + 1

/-- The single-precision `float` nearest to an integer: 24 significant bits, ties to the even
significand (IEEE 754 binary32, round to nearest even), for magnitudes in the finite range
of `float`. -/
def roundFloat32 (n : Int) : Int :=
  let a := n.natAbs
  let e := float32Shift 128 a
  let q := a / 2 ^ e
  let r := a % 2 ^ e
  let q' := if 2 ^ e < 2 * r ∨ (2 * r = 2 ^ e ∧ q % 2 = 1) then q + 1 else q
  if n < 0 then -((q' * 2 ^ e : Nat) : Int) else ((q' * 2 ^ e : Nat) : Int)

/-- The `float` difference of two integer-valued floats: the exact difference, rounded. -/
def float32Sub (a b : Int) : Int := roundFloat32 (a - b)

/-- The `float` product of two integer-valued floats: the exact product, rounded. -/
def float32Mul (a b : Int) : Int := roundFloat32 (a * b)

/-- The `float` sum of two integer-valued floats: the exact sum, rounded. -/
def float32Add (a b : Int) : Int := roundFloat32 (a + b)

/-- The squared planar distance as `Position::GetExactDist2dSq` computes it in `float`:
`dx * dx + dy * dy` with `dx` and `dy` the differences of the coordinates. -/
def float32Dist2dSq (a b : Position) : Int :=
  let dx := float32Sub a.m_positionX b.m_positionX
  let dy := float32Sub a.m_positionY b.m_positionY
  float32Add (float32Mul dx dx) (float32Mul dy dy)

/-- Example collaborators: `Cell(x, y)` is the square of side 100 that holds `(x, y)`, a cell
relocation of any kind succeeds exactly for the cells `loaded` accepts, the `float`
operations are the single-precision ones on integer-valued floats, and the calls `Update`
makes before the drains leave the state as it is. -/
def exampleCollab (loaded : Cell → Bool) : Collab :=
  { mkCell := fun x y => ⟨x / 100, y / 100⟩,
    CreatureCellRelocation := fun _ c => loaded c,
    GameObjectCellRelocation := fun _ c => loaded c,
    DynamicObjectCellRelocation := fun _ c => loaded c,
    floatOne := 1,
    floatSub := float32Sub,
    floatMul := float32Mul,
    floatGt := fun a b => decide (b < a),
    GetExactDist2dSq := float32Dist2dSq,
    dynamicTreeUpdate := fun _ s => s,
    sessionUpdate := fun _ _ s => s,
    playerUpdate := fun _ _ s => s,
    VisitNearbyCellsOf := fun _ s => s,
    transportUpdate := fun _ _ s => s }

/-- Every cell is loaded. -/
def allLoaded : Collab := exampleCollab (fun _ => true)

/-- No cell is loaded. -/
def noneLoaded : Collab := exampleCollab (fun _ => false)

/-- Only cells west of the origin are loaded. -/
def westLoaded : Collab := exampleCollab (fun c => decide (c.x < 0))

/-- A creature in world on map `m`, at the origin, with move state `ms`, pending position
(100, 200, 50) and respawn coordinates (-300, -300, 0). -/
def exampleMover (m : MapId) (ms : ObjectCellMoveState) (pet : Bool) : WorldObject :=
  { WorldObject.blank with
    isCreature := true, isPet := pet, map := some m, inWorld := true, _moveState := ms,
    _newPosition := ⟨100, 200, 50, 0⟩, respawnPosition := ⟨-300, -300, 0, 0⟩ }

/-- A phase of map 1 whose three move lists all hold `queue`, with `o` as object 7 and blank
objects elsewhere. -/
def exampleState (o : WorldObject) (queue : List Guid) : State :=
  { phase := { MapPhase.blank 1 with
      _creaturesToMove := queue, _gameObjectsToMove := queue, _dynamicObjectsToMove := queue },
    objs := fun g => if g = 7 then o else WorldObject.blank }

/-- The three shapes of the state a loop body returns. -/
def BodyShape (x : Guid) (s s' : State) : Prop :=
  s' = s ∨ s' = s.setMoveState x ObjectCellMoveState.MAP_OBJECT_CELL_MOVE_NONE
    ∨ ∃ p, s' = (s.setMoveState x ObjectCellMoveState.MAP_OBJECT_CELL_MOVE_NONE).Relocate x p

/-! ## The loop bodies of the drains are local -/

theorem setMoveState_phase (s : State) (x : Guid) (ms : ObjectCellMoveState) :
    (s.setMoveState x ms).phase = s.phase := rfl

theorem Relocate_phase (s : State) (x : Guid) (p : Position) :
    (s.Relocate x p).phase = s.phase := rfl

theorem setMoveState_objs_self (s : State) (x : Guid) (ms : ObjectCellMoveState) :
    (s.setMoveState x ms).objs x = { s.objs x with _moveState := ms } := by
  unfold State.setMoveState
  exact Function.update_same _ _ _

theorem setMoveState_objs_other (s : State) (x e : Guid) (ms : ObjectCellMoveState)
    (h : e ≠ x) : (s.setMoveState x ms).objs e = s.objs e := by
  unfold State.setMoveState
  exact Function.update_noteq h _ _

theorem Relocate_objs_self (s : State) (x : Guid) (p : Position) :
    (s.Relocate x p).objs x = { s.objs x with position := p } := by
  unfold State.Relocate
  exact Function.update_same _ _ _

theorem Relocate_objs_other (s : State) (x e : Guid) (p : Position) (h : e ≠ x) :
    (s.Relocate x p).objs e = s.objs e := by
  unfold State.Relocate
  exact Function.update_noteq h _ _

theorem BodyShape.phase_eq {x : Guid} {s s' : State} (h : BodyShape x s s') :
    s'.phase = s.phase := by
  rcases h with h | h | ⟨p, h⟩ <;> subst h <;> rfl

theorem BodyShape.frame {x : Guid} {s s' : State} (h : BodyShape x s s') (e : Guid)
    (he : e ≠ x) : s'.objs e = s.objs e := by
  rcases h with h | h | ⟨p, h⟩ <;> subst h
  · rfl
  · exact setMoveState_objs_other s x e _ he
  · rw [Relocate_objs_other _ x e p he, setMoveState_objs_other s x e _ he]

theorem moveCreature_shape (E : Collab) (x : Guid) (s : State) :
    BodyShape x s (MapPhase.moveCreature E x s).1 := by
  simp only [MapPhase.moveCreature, CreatureRespawnRelocation]
  split_ifs <;>
    first
      | exact Or.inl rfl
      | exact Or.inr (Or.inl rfl)
      | exact Or.inr (Or.inr ⟨_, rfl⟩)

theorem moveGameObject_shape (E : Collab) (x : Guid) (s : State) :
    BodyShape x s (MapPhase.moveGameObject E x s).1 := by
  simp only [MapPhase.moveGameObject, GameObjectRespawnRelocation]
  split_ifs <;>
    first
      | exact Or.inl rfl
      | exact Or.inr (Or.inl rfl)
      | exact Or.inr (Or.inr ⟨_, rfl⟩)

theorem moveDynamicObject_shape (E : Collab) (x : Guid) (s : State) :
    BodyShape x s (MapPhase.moveDynamicObject E x s).1 := by
  simp only [MapPhase.moveDynamicObject]
  split_ifs <;>
    first
      | exact Or.inl rfl
      | exact Or.inr (Or.inl rfl)
      | exact Or.inr (Or.inr ⟨_, rfl⟩)


/-! ### What the updates keep of the object -/

theorem setMoveState_read (s : State) (x : Guid) (ms : ObjectCellMoveState) :
    ((s.setMoveState x ms).objs x).map = (s.objs x).map
    ∧ ((s.setMoveState x ms).objs x).inWorld = (s.objs x).inWorld
    ∧ ((s.setMoveState x ms).objs x).position = (s.objs x).position
    ∧ ((s.setMoveState x ms).objs x)._newPosition = (s.objs x)._newPosition
    ∧ ((s.setMoveState x ms).objs x).respawnPosition = (s.objs x).respawnPosition
    ∧ ((s.setMoveState x ms).objs x).isPet = (s.objs x).isPet
    ∧ ((s.setMoveState x ms).objs x).isVehicle = (s.objs x).isVehicle
    ∧ ((s.setMoveState x ms).objs x)._moveState = ms := by
  rw [setMoveState_objs_self]
  exact ⟨rfl, rfl, rfl, rfl, rfl, rfl, rfl, rfl⟩

theorem Relocate_read (s : State) (x : Guid) (p : Position) :
    ((s.Relocate x p).objs x).map = (s.objs x).map
    ∧ ((s.Relocate x p).objs x).position = p
    ∧ ((s.Relocate x p).objs x)._moveState = (s.objs x)._moveState
    ∧ ((s.Relocate x p).objs x).isPet = (s.objs x).isPet := by
  rw [Relocate_objs_self]
  exact ⟨rfl, rfl, rfl, rfl⟩

theorem setMoveState_none_of_none (s : State) (x : Guid)
    (h : (s.objs x)._moveState = ObjectCellMoveState.MAP_OBJECT_CELL_MOVE_NONE) :
    (s.setMoveState x ObjectCellMoveState.MAP_OBJECT_CELL_MOVE_NONE).objs x = s.objs x := by
  rw [setMoveState_objs_self, ← h]

/-! ### The branches of the creature loop body -/

theorem moveCreature_offMap (E : Collab) (x : Guid) (s : State)
    (hm : (s.objs x).map ≠ some s.phase._map) :
    MapPhase.moveCreature E x s = (s, []) := by
  unfold MapPhase.moveCreature
  rw [if_pos hm]

theorem moveCreature_notActive (E : Collab) (x : Guid) (s : State)
    (hm : (s.objs x).map = some s.phase._map)
    (ha : (s.objs x)._moveState ≠ ObjectCellMoveState.MAP_OBJECT_CELL_MOVE_ACTIVE) :
    MapPhase.moveCreature E x s
      = (s.setMoveState x ObjectCellMoveState.MAP_OBJECT_CELL_MOVE_NONE, []) := by
  unfold MapPhase.moveCreature
  rw [if_neg (not_not.mpr hm), if_pos ha]

theorem moveCreature_notInWorld (E : Collab) (x : Guid) (s : State)
    (hm : (s.objs x).map = some s.phase._map)
    (ha : (s.objs x)._moveState = ObjectCellMoveState.MAP_OBJECT_CELL_MOVE_ACTIVE)
    (hw : (s.objs x).inWorld = false) :
    MapPhase.moveCreature E x s
      = (s.setMoveState x ObjectCellMoveState.MAP_OBJECT_CELL_MOVE_NONE, []) := by
  unfold MapPhase.moveCreature
  rw [if_neg (not_not.mpr hm), if_neg (not_not.mpr ha)]
  simp only [(setMoveState_read s x _).2.1, hw]
  rfl

theorem moveCreature_moved (E : Collab) (x : Guid) (s : State)
    (hm : (s.objs x).map = some s.phase._map)
    (ha : (s.objs x)._moveState = ObjectCellMoveState.MAP_OBJECT_CELL_MOVE_ACTIVE)
    (hw : (s.objs x).inWorld = true)
    (hp : E.CreatureCellRelocation x (MapPhase.newCell E s x) = true) :
    MapPhase.moveCreature E x s
      = ((s.setMoveState x ObjectCellMoveState.MAP_OBJECT_CELL_MOVE_NONE).Relocate x
            (s.objs x)._newPosition,
          [Call.CreatureCellRelocation x (MapPhase.newCell E s x),
           Call.Relocate Kind.creature x (s.objs x)._newPosition]
            ++ (if (s.objs x).isVehicle then [Call.RelocatePassengers x] else [])
            ++ [Call.UpdatePositionData Kind.creature x,
                Call.UpdateObjectVisibility Kind.creature x false]) := by
  unfold MapPhase.moveCreature
  unfold MapPhase.newCell at hp
  rw [if_neg (not_not.mpr hm), if_neg (not_not.mpr ha)]
  simp only [(setMoveState_read s x _).2.1, (setMoveState_read s x _).2.2.2.1,
    (setMoveState_read s x _).2.2.2.2.2.2.1, hw, hp, MapPhase.newCell]
  rfl

theorem moveCreature_respawned (E : Collab) (x : Guid) (s : State)
    (hm : (s.objs x).map = some s.phase._map)
    (ha : (s.objs x)._moveState = ObjectCellMoveState.MAP_OBJECT_CELL_MOVE_ACTIVE)
    (hw : (s.objs x).inWorld = true)
    (hp : E.CreatureCellRelocation x (MapPhase.newCell E s x) = false)
    (hr : E.CreatureCellRelocation x (MapPhase.respawnCell E s x) = true) :
    MapPhase.moveCreature E x s
      = ((s.setMoveState x ObjectCellMoveState.MAP_OBJECT_CELL_MOVE_NONE).Relocate x
            (s.objs x).respawnPosition,
          [Call.CreatureCellRelocation x (MapPhase.newCell E s x),
           Call.CreatureRespawnRelocation x false,
           Call.Relocate Kind.creature x (s.objs x).respawnPosition,
           Call.UpdatePositionData Kind.creature x,
           Call.UpdateObjectVisibility Kind.creature x false]) := by
  unfold MapPhase.moveCreature CreatureRespawnRelocation
  unfold MapPhase.newCell at hp
  unfold MapPhase.respawnCell at hr
  rw [if_neg (not_not.mpr hm), if_neg (not_not.mpr ha)]
  simp only [(setMoveState_read s x _).2.1, (setMoveState_read s x _).2.2.2.1,
    (setMoveState_read s x _).2.2.2.2.1, hw, hp, hr, MapPhase.newCell]
  rfl

theorem moveCreature_petRemoved (E : Collab) (x : Guid) (s : State)
    (hm : (s.objs x).map = some s.phase._map)
    (ha : (s.objs x)._moveState = ObjectCellMoveState.MAP_OBJECT_CELL_MOVE_ACTIVE)
    (hw : (s.objs x).inWorld = true)
    (hp : E.CreatureCellRelocation x (MapPhase.newCell E s x) = false)
    (hr : E.CreatureCellRelocation x (MapPhase.respawnCell E s x) = false)
    (hpet : (s.objs x).isPet = true) :
    MapPhase.moveCreature E x s
      = (s.setMoveState x ObjectCellMoveState.MAP_OBJECT_CELL_MOVE_NONE,
          [Call.CreatureCellRelocation x (MapPhase.newCell E s x),
           Call.CreatureRespawnRelocation x false,
           Call.PetRemove x PetSaveMode.PET_SAVE_NOT_IN_SLOT true]) := by
  unfold MapPhase.moveCreature CreatureRespawnRelocation
  unfold MapPhase.newCell at hp
  unfold MapPhase.respawnCell at hr
  rw [if_neg (not_not.mpr hm), if_neg (not_not.mpr ha)]
  simp [(setMoveState_read s x _).2.1, (setMoveState_read s x _).2.2.2.1,
    (setMoveState_read s x _).2.2.2.2.1, (setMoveState_read s x _).2.2.2.2.2.1,
    hw, hp, hr, hpet, MapPhase.newCell]

theorem moveCreature_removed (E : Collab) (x : Guid) (s : State)
    (hm : (s.objs x).map = some s.phase._map)
    (ha : (s.objs x)._moveState = ObjectCellMoveState.MAP_OBJECT_CELL_MOVE_ACTIVE)
    (hw : (s.objs x).inWorld = true)
    (hp : E.CreatureCellRelocation x (MapPhase.newCell E s x) = false)
    (hr : E.CreatureCellRelocation x (MapPhase.respawnCell E s x) = false)
    (hpet : (s.objs x).isPet = false) :
    MapPhase.moveCreature E x s
      = (s.setMoveState x ObjectCellMoveState.MAP_OBJECT_CELL_MOVE_NONE,
          [Call.CreatureCellRelocation x (MapPhase.newCell E s x),
           Call.CreatureRespawnRelocation x false,
           Call.AddObjectToRemoveList Kind.creature x]) := by
  unfold MapPhase.moveCreature CreatureRespawnRelocation
  unfold MapPhase.newCell at hp
  unfold MapPhase.respawnCell at hr
  rw [if_neg (not_not.mpr hm), if_neg (not_not.mpr ha)]
  simp [(setMoveState_read s x _).2.1, (setMoveState_read s x _).2.2.2.1,
    (setMoveState_read s x _).2.2.2.2.1, (setMoveState_read s x _).2.2.2.2.2.1,
    hw, hp, hr, hpet, MapPhase.newCell]

/-- Case analysis on the branch the creature loop body takes. -/
theorem moveCreature_elim (E : Collab) (x : Guid) (s : State)
    (P : State × List Call → Prop)
    (offMap : (s.objs x).map ≠ some s.phase._map → P (s, []))
    (skipped : (s.objs x).map = some s.phase._map →
      ((s.objs x)._moveState ≠ ObjectCellMoveState.MAP_OBJECT_CELL_MOVE_ACTIVE
        ∨ (s.objs x).inWorld = false) →
      P (s.setMoveState x ObjectCellMoveState.MAP_OBJECT_CELL_MOVE_NONE, []))
    (moved : (s.objs x).map = some s.phase._map →
      (s.objs x)._moveState = ObjectCellMoveState.MAP_OBJECT_CELL_MOVE_ACTIVE →
      (s.objs x).inWorld = true →
      E.CreatureCellRelocation x (MapPhase.newCell E s x) = true →
      P ((s.setMoveState x ObjectCellMoveState.MAP_OBJECT_CELL_MOVE_NONE).Relocate x
            (s.objs x)._newPosition,
          [Call.CreatureCellRelocation x (MapPhase.newCell E s x),
           Call.Relocate Kind.creature x (s.objs x)._newPosition]
            ++ (if (s.objs x).isVehicle then [Call.RelocatePassengers x] else [])
            ++ [Call.UpdatePositionData Kind.creature x,
                Call.UpdateObjectVisibility Kind.creature x false]))
    (respawned : (s.objs x).map = some s.phase._map →
      (s.objs x)._moveState = ObjectCellMoveState.MAP_OBJECT_CELL_MOVE_ACTIVE →
      (s.objs x).inWorld = true →
      E.CreatureCellRelocation x (MapPhase.newCell E s x) = false →
      E.CreatureCellRelocation x (MapPhase.respawnCell E s x) = true →
      P ((s.setMoveState x ObjectCellMoveState.MAP_OBJECT_CELL_MOVE_NONE).Relocate x
            (s.objs x).respawnPosition,
          [Call.CreatureCellRelocation x (MapPhase.newCell E s x),
           Call.CreatureRespawnRelocation x false,
           Call.Relocate Kind.creature x (s.objs x).respawnPosition,
           Call.UpdatePositionData Kind.creature x,
           Call.UpdateObjectVisibility Kind.creature x false]))
    (petRemoved : (s.objs x).map = some s.phase._map →
      (s.objs x)._moveState = ObjectCellMoveState.MAP_OBJECT_CELL_MOVE_ACTIVE →
      (s.objs x).inWorld = true →
      E.CreatureCellRelocation x (MapPhase.newCell E s x) = false →
      E.CreatureCellRelocation x (MapPhase.respawnCell E s x) = false →
      (s.objs x).isPet = true →
      P (s.setMoveState x ObjectCellMoveState.MAP_OBJECT_CELL_MOVE_NONE,
          [Call.CreatureCellRelocation x (MapPhase.newCell E s x),
           Call.CreatureRespawnRelocation x false,
           Call.PetRemove x PetSaveMode.PET_SAVE_NOT_IN_SLOT true]))
    (removed : (s.objs x).map = some s.phase._map →
      (s.objs x)._moveState = ObjectCellMoveState.MAP_OBJECT_CELL_MOVE_ACTIVE →
      (s.objs x).inWorld = true →
      E.CreatureCellRelocation x (MapPhase.newCell E s x) = false →
      E.CreatureCellRelocation x (MapPhase.respawnCell E s x) = false →
      (s.objs x).isPet = false →
      P (s.setMoveState x ObjectCellMoveState.MAP_OBJECT_CELL_MOVE_NONE,
          [Call.CreatureCellRelocation x (MapPhase.newCell E s x),
           Call.CreatureRespawnRelocation x false,
           Call.AddObjectToRemoveList Kind.creature x])) :
    P (MapPhase.moveCreature E x s) := by
  by_cases hm : (s.objs x).map = some s.phase._map
  · by_cases ha : (s.objs x)._moveState = ObjectCellMoveState.MAP_OBJECT_CELL_MOVE_ACTIVE
    · cases hw : (s.objs x).inWorld
      · rw [moveCreature_notInWorld E x s hm ha hw]
        exact skipped hm (Or.inr hw)
      · cases hp : E.CreatureCellRelocation x (MapPhase.newCell E s x)
        · cases hr : E.CreatureCellRelocation x (MapPhase.respawnCell E s x)
          · cases hpet : (s.objs x).isPet
            · rw [moveCreature_removed E x s hm ha hw hp hr hpet]
              exact removed hm ha hw hp hr hpet
            · rw [moveCreature_petRemoved E x s hm ha hw hp hr hpet]
              exact petRemoved hm ha hw hp hr hpet
          · rw [moveCreature_respawned E x s hm ha hw hp hr]
            exact respawned hm ha hw hp hr
        · rw [moveCreature_moved E x s hm ha hw hp]
          exact moved hm ha hw hp
    · rw [moveCreature_notActive E x s hm ha]
      exact skipped hm (Or.inl ha)
  · rw [moveCreature_offMap E x s hm]
    exact offMap hm

theorem settled_setMoveState_none (s : State) (x : Guid) :
    Settled (s.setMoveState x ObjectCellMoveState.MAP_OBJECT_CELL_MOVE_NONE) x := by
  exact Or.inr (setMoveState_read s x _).2.2.2.2.2.2.2

theorem settled_relocate (s : State) (x : Guid) (p : Position) (h : Settled s x) :
    Settled (s.Relocate x p) x := by
  unfold Settled at *
  rw [(Relocate_read s x p).1, (Relocate_read s x p).2.2.1]
  exact h

theorem moveCreature_local (E : Collab) : LocalBody (MapPhase.moveCreature E) where
  phase_eq := fun x s => (moveCreature_shape E x s).phase_eq
  frame := fun x s e h => (moveCreature_shape E x s).frame e h
  about := by
    intro x s
    apply moveCreature_elim E x s (fun r => ∀ ev, ev ∈ r.2 → ev.movedObject = some x)
    · intro _; simp
    · intro _ _; simp
    · intro _ _ _ _
      by_cases hv : (s.objs x).isVehicle = true <;> simp [hv, Call.movedObject]
    · intro _ _ _ _ _; simp [Call.movedObject]
    · intro _ _ _ _ _ _; simp [Call.movedObject]
    · intro _ _ _ _ _ _; simp [Call.movedObject]
  dep := by
    intro x s s' hm ho
    have hn : MapPhase.newCell E s' x = MapPhase.newCell E s x := by
      unfold MapPhase.newCell; rw [ho]
    have hc : MapPhase.respawnCell E s' x = MapPhase.respawnCell E s x := by
      unfold MapPhase.respawnCell; rw [ho]
    apply moveCreature_elim E x s
      (fun r => r.1.objs x = (MapPhase.moveCreature E x s').1.objs x
        ∧ r.2 = (MapPhase.moveCreature E x s').2)
    · intro h
      rw [moveCreature_offMap E x s' (by rw [← ho, ← hm]; exact h)]
      exact ⟨ho, rfl⟩
    · intro h1 h2
      have h1' : (s'.objs x).map = some s'.phase._map := by rw [← ho, ← hm]; exact h1
      rcases h2 with h2 | h2
      · rw [moveCreature_notActive E x s' h1' (by rw [← ho]; exact h2)]
        exact ⟨by rw [setMoveState_objs_self, setMoveState_objs_self, ho], rfl⟩
      · by_cases ha : (s'.objs x)._moveState
            = ObjectCellMoveState.MAP_OBJECT_CELL_MOVE_ACTIVE
        · rw [moveCreature_notInWorld E x s' h1' ha (by rw [← ho]; exact h2)]
          exact ⟨by rw [setMoveState_objs_self, setMoveState_objs_self, ho], rfl⟩
        · rw [moveCreature_notActive E x s' h1' ha]
          exact ⟨by rw [setMoveState_objs_self, setMoveState_objs_self, ho], rfl⟩
    · intro h1 h2 h3 h4
      rw [moveCreature_moved E x s' (by rw [← ho, ← hm]; exact h1) (by rw [← ho]; exact h2)
        (by rw [← ho]; exact h3) (by rw [hn]; exact h4)]
      refine ⟨?_, by rw [hn, ho]⟩
      rw [Relocate_objs_self, Relocate_objs_self, setMoveState_objs_self,
        setMoveState_objs_self, ho]
    · intro h1 h2 h3 h4 h5
      rw [moveCreature_respawned E x s' (by rw [← ho, ← hm]; exact h1)
        (by rw [← ho]; exact h2) (by rw [← ho]; exact h3) (by rw [hn]; exact h4)
        (by rw [hc]; exact h5)]
      refine ⟨?_, by rw [hn, ho]⟩
      rw [Relocate_objs_self, Relocate_objs_self, setMoveState_objs_self,
        setMoveState_objs_self, ho]
    · intro h1 h2 h3 h4 h5 h6
      rw [moveCreature_petRemoved E x s' (by rw [← ho, ← hm]; exact h1)
        (by rw [← ho]; exact h2) (by rw [← ho]; exact h3) (by rw [hn]; exact h4)
        (by rw [hc]; exact h5) (by rw [← ho]; exact h6)]
      refine ⟨?_, by rw [hn]⟩
      rw [setMoveState_objs_self, setMoveState_objs_self, ho]
    · intro h1 h2 h3 h4 h5 h6
      rw [moveCreature_removed E x s' (by rw [← ho, ← hm]; exact h1)
        (by rw [← ho]; exact h2) (by rw [← ho]; exact h3) (by rw [hn]; exact h4)
        (by rw [hc]; exact h5) (by rw [← ho]; exact h6)]
      refine ⟨?_, by rw [hn]⟩
      rw [setMoveState_objs_self, setMoveState_objs_self, ho]
  settles := by
    intro x s
    apply moveCreature_elim E x s (fun r => Settled r.1 x)
    · intro h; exact Or.inl h
    · intro _ _; exact settled_setMoveState_none s x
    · intro _ _ _ _; exact settled_relocate _ x _ (settled_setMoveState_none s x)
    · intro _ _ _ _ _; exact settled_relocate _ x _ (settled_setMoveState_none s x)
    · intro _ _ _ _ _ _; exact settled_setMoveState_none s x
    · intro _ _ _ _ _ _; exact settled_setMoveState_none s x
  settled_noop := by
    intro x s h
    by_cases hm : (s.objs x).map = some s.phase._map
    · have hn : (s.objs x)._moveState = ObjectCellMoveState.MAP_OBJECT_CELL_MOVE_NONE := by
        rcases h with h | h
        · exact absurd hm h
        · exact h
      rw [moveCreature_notActive E x s hm (by rw [hn]; decide)]
      exact ⟨setMoveState_none_of_none s x hn, rfl⟩
    · rw [moveCreature_offMap E x s hm]
      exact ⟨rfl, rfl⟩

/-! ### The branches of the game object loop body -/

theorem moveGameObject_offMap (E : Collab) (x : Guid) (s : State)
    (hm : (s.objs x).map ≠ some s.phase._map) :
    MapPhase.moveGameObject E x s = (s, []) := by
  unfold MapPhase.moveGameObject
  rw [if_pos hm]

theorem moveGameObject_notActive (E : Collab) (x : Guid) (s : State)
    (hm : (s.objs x).map = some s.phase._map)
    (ha : (s.objs x)._moveState ≠ ObjectCellMoveState.MAP_OBJECT_CELL_MOVE_ACTIVE) :
    MapPhase.moveGameObject E x s
      = (s.setMoveState x ObjectCellMoveState.MAP_OBJECT_CELL_MOVE_NONE, []) := by
  unfold MapPhase.moveGameObject
  rw [if_neg (not_not.mpr hm), if_pos ha]

theorem moveGameObject_notInWorld (E : Collab) (x : Guid) (s : State)
    (hm : (s.objs x).map = some s.phase._map)
    (ha : (s.objs x)._moveState = ObjectCellMoveState.MAP_OBJECT_CELL_MOVE_ACTIVE)
    (hw : (s.objs x).inWorld = false) :
    MapPhase.moveGameObject E x s
      = (s.setMoveState x ObjectCellMoveState.MAP_OBJECT_CELL_MOVE_NONE, []) := by
  unfold MapPhase.moveGameObject
  rw [if_neg (not_not.mpr hm), if_neg (not_not.mpr ha)]
  simp only [(setMoveState_read s x _).2.1, hw]
  rfl

theorem moveGameObject_moved (E : Collab) (x : Guid) (s : State)
    (hm : (s.objs x).map = some s.phase._map)
    (ha : (s.objs x)._moveState = ObjectCellMoveState.MAP_OBJECT_CELL_MOVE_ACTIVE)
    (hw : (s.objs x).inWorld = true)
    (hp : E.GameObjectCellRelocation x (MapPhase.newCell E s x) = true) :
    MapPhase.moveGameObject E x s
      = ((s.setMoveState x ObjectCellMoveState.MAP_OBJECT_CELL_MOVE_NONE).Relocate x
            (s.objs x)._newPosition,
          [Call.GameObjectCellRelocation x (MapPhase.newCell E s x),
           Call.Relocate Kind.gameObject x (s.objs x)._newPosition,
           Call.UpdateModelPosition x, Call.UpdatePositionData Kind.gameObject x,
           Call.UpdateObjectVisibility Kind.gameObject x false]) := by
  unfold MapPhase.moveGameObject
  unfold MapPhase.newCell at hp
  rw [if_neg (not_not.mpr hm), if_neg (not_not.mpr ha)]
  simp only [(setMoveState_read s x _).2.1, (setMoveState_read s x _).2.2.2.1, hw, hp,
    MapPhase.newCell]
  rfl

theorem moveGameObject_respawned (E : Collab) (x : Guid) (s : State)
    (hm : (s.objs x).map = some s.phase._map)
    (ha : (s.objs x)._moveState = ObjectCellMoveState.MAP_OBJECT_CELL_MOVE_ACTIVE)
    (hw : (s.objs x).inWorld = true)
    (hp : E.GameObjectCellRelocation x (MapPhase.newCell E s x) = false)
    (hr : E.GameObjectCellRelocation x (MapPhase.respawnCell E s x) = true) :
    MapPhase.moveGameObject E x s
      = ((s.setMoveState x ObjectCellMoveState.MAP_OBJECT_CELL_MOVE_NONE).Relocate x
            (s.objs x).respawnPosition,
          [Call.GameObjectCellRelocation x (MapPhase.newCell E s x),
           Call.GameObjectRespawnRelocation x false,
           Call.Relocate Kind.gameObject x (s.objs x).respawnPosition,
           Call.UpdatePositionData Kind.gameObject x,
           Call.UpdateObjectVisibility Kind.gameObject x false]) := by
  unfold MapPhase.moveGameObject GameObjectRespawnRelocation
  unfold MapPhase.newCell at hp
  unfold MapPhase.respawnCell at hr
  rw [if_neg (not_not.mpr hm), if_neg (not_not.mpr ha)]
  simp only [(setMoveState_read s x _).2.1, (setMoveState_read s x _).2.2.2.1,
    (setMoveState_read s x _).2.2.2.2.1, hw, hp, hr, MapPhase.newCell]
  rfl

theorem moveGameObject_removed (E : Collab) (x : Guid) (s : State)
    (hm : (s.objs x).map = some s.phase._map)
    (ha : (s.objs x)._moveState = ObjectCellMoveState.MAP_OBJECT_CELL_MOVE_ACTIVE)
    (hw : (s.objs x).inWorld = true)
    (hp : E.GameObjectCellRelocation x (MapPhase.newCell E s x) = false)
    (hr : E.GameObjectCellRelocation x (MapPhase.respawnCell E s x) = false) :
    MapPhase.moveGameObject E x s
      = (s.setMoveState x ObjectCellMoveState.MAP_OBJECT_CELL_MOVE_NONE,
          [Call.GameObjectCellRelocation x (MapPhase.newCell E s x),
           Call.GameObjectRespawnRelocation x false,
           Call.AddObjectToRemoveList Kind.gameObject x]) := by
  unfold MapPhase.moveGameObject GameObjectRespawnRelocation
  unfold MapPhase.newCell at hp
  unfold MapPhase.respawnCell at hr
  rw [if_neg (not_not.mpr hm), if_neg (not_not.mpr ha)]
  simp [(setMoveState_read s x _).2.1, (setMoveState_read s x _).2.2.2.1,
    (setMoveState_read s x _).2.2.2.2.1, hw, hp, hr, MapPhase.newCell]

/-- Case analysis on the branch the game object loop body takes. -/
theorem moveGameObject_elim (E : Collab) (x : Guid) (s : State)
    (P : State × List Call → Prop)
    (offMap : (s.objs x).map ≠ some s.phase._map → P (s, []))
    (skipped : (s.objs x).map = some s.phase._map →
      ((s.objs x)._moveState ≠ ObjectCellMoveState.MAP_OBJECT_CELL_MOVE_ACTIVE
        ∨ (s.objs x).inWorld = false) →
      P (s.setMoveState x ObjectCellMoveState.MAP_OBJECT_CELL_MOVE_NONE, []))
    (moved : (s.objs x).map = some s.phase._map →
      (s.objs x)._moveState = ObjectCellMoveState.MAP_OBJECT_CELL_MOVE_ACTIVE →
      (s.objs x).inWorld = true →
      E.GameObjectCellRelocation x (MapPhase.newCell E s x) = true →
      P ((s.setMoveState x ObjectCellMoveState.MAP_OBJECT_CELL_MOVE_NONE).Relocate x
            (s.objs x)._newPosition,
          [Call.GameObjectCellRelocation x (MapPhase.newCell E s x),
           Call.Relocate Kind.gameObject x (s.objs x)._newPosition,
           Call.UpdateModelPosition x, Call.UpdatePositionData Kind.gameObject x,
           Call.UpdateObjectVisibility Kind.gameObject x false]))
    (respawned : (s.objs x).map = some s.phase._map →
      (s.objs x)._moveState = ObjectCellMoveState.MAP_OBJECT_CELL_MOVE_ACTIVE →
      (s.objs x).inWorld = true →
      E.GameObjectCellRelocation x (MapPhase.newCell E s x) = false →
      E.GameObjectCellRelocation x (MapPhase.respawnCell E s x) = true →
      P ((s.setMoveState x ObjectCellMoveState.MAP_OBJECT_CELL_MOVE_NONE).Relocate x
            (s.objs x).respawnPosition,
          [Call.GameObjectCellRelocation x (MapPhase.newCell E s x),
           Call.GameObjectRespawnRelocation x false,
           Call.Relocate Kind.gameObject x (s.objs x).respawnPosition,
           Call.UpdatePositionData Kind.gameObject x,
           Call.UpdateObjectVisibility Kind.gameObject x false]))
    (removed : (s.objs x).map = some s.phase._map →
      (s.objs x)._moveState = ObjectCellMoveState.MAP_OBJECT_CELL_MOVE_ACTIVE →
      (s.objs x).inWorld = true →
      E.GameObjectCellRelocation x (MapPhase.newCell E s x) = false →
      E.GameObjectCellRelocation x (MapPhase.respawnCell E s x) = false →
      P (s.setMoveState x ObjectCellMoveState.MAP_OBJECT_CELL_MOVE_NONE,
          [Call.GameObjectCellRelocation x (MapPhase.newCell E s x),
           Call.GameObjectRespawnRelocation x false,
           Call.AddObjectToRemoveList Kind.gameObject x])) :
    P (MapPhase.moveGameObject E x s) := by
  by_cases hm : (s.objs x).map = some s.phase._map
  · by_cases ha : (s.objs x)._moveState = ObjectCellMoveState.MAP_OBJECT_CELL_MOVE_ACTIVE
    · cases hw : (s.objs x).inWorld
      · rw [moveGameObject_notInWorld E x s hm ha hw]
        exact skipped hm (Or.inr hw)
      · cases hp : E.GameObjectCellRelocation x (MapPhase.newCell E s x)
        · cases hr : E.GameObjectCellRelocation x (MapPhase.respawnCell E s x)
          · rw [moveGameObject_removed E x s hm ha hw hp hr]
            exact removed hm ha hw hp hr
          · rw [moveGameObject_respawned E x s hm ha hw hp hr]
            exact respawned hm ha hw hp hr
        · rw [moveGameObject_moved E x s hm ha hw hp]
          exact moved hm ha hw hp
    · rw [moveGameObject_notActive E x s hm ha]
      exact skipped hm (Or.inl ha)
  · rw [moveGameObject_offMap E x s hm]
    exact offMap hm

theorem moveGameObject_local (E : Collab) : LocalBody (MapPhase.moveGameObject E) where
  phase_eq := fun x s => (moveGameObject_shape E x s).phase_eq
  frame := fun x s e h => (moveGameObject_shape E x s).frame e h
  about := by
    intro x s
    apply moveGameObject_elim E x s (fun r => ∀ ev, ev ∈ r.2 → ev.movedObject = some x)
    · intro _; simp
    · intro _ _; simp
    · intro _ _ _ _; simp [Call.movedObject]
    · intro _ _ _ _ _; simp [Call.movedObject]
    · intro _ _ _ _ _; simp [Call.movedObject]
  dep := by
    intro x s s' hm ho
    have hn : MapPhase.newCell E s' x = MapPhase.newCell E s x := by
      unfold MapPhase.newCell; rw [ho]
    have hc : MapPhase.respawnCell E s' x = MapPhase.respawnCell E s x := by
      unfold MapPhase.respawnCell; rw [ho]
    apply moveGameObject_elim E x s
      (fun r => r.1.objs x = (MapPhase.moveGameObject E x s').1.objs x
        ∧ r.2 = (MapPhase.moveGameObject E x s').2)
    · intro h
      rw [moveGameObject_offMap E x s' (by rw [← ho, ← hm]; exact h)]
      exact ⟨ho, rfl⟩
    · intro h1 h2
      have h1' : (s'.objs x).map = some s'.phase._map := by rw [← ho, ← hm]; exact h1
      rcases h2 with h2 | h2
      · rw [moveGameObject_notActive E x s' h1' (by rw [← ho]; exact h2)]
        exact ⟨by rw [setMoveState_objs_self, setMoveState_objs_self, ho], rfl⟩
      · by_cases ha : (s'.objs x)._moveState
            = ObjectCellMoveState.MAP_OBJECT_CELL_MOVE_ACTIVE
        · rw [moveGameObject_notInWorld E x s' h1' ha (by rw [← ho]; exact h2)]
          exact ⟨by rw [setMoveState_objs_self, setMoveState_objs_self, ho], rfl⟩
        · rw [moveGameObject_notActive E x s' h1' ha]
          exact ⟨by rw [setMoveState_objs_self, setMoveState_objs_self, ho], rfl⟩
    · intro h1 h2 h3 h4
      rw [moveGameObject_moved E x s' (by rw [← ho, ← hm]; exact h1)
        (by rw [← ho]; exact h2) (by rw [← ho]; exact h3) (by rw [hn]; exact h4)]
      refine ⟨?_, by rw [hn, ho]⟩
      rw [Relocate_objs_self, Relocate_objs_self, setMoveState_objs_self,
        setMoveState_objs_self, ho]
    · intro h1 h2 h3 h4 h5
      rw [moveGameObject_respawned E x s' (by rw [← ho, ← hm]; exact h1)
        (by rw [← ho]; exact h2) (by rw [← ho]; exact h3) (by rw [hn]; exact h4)
        (by rw [hc]; exact h5)]
      refine ⟨?_, by rw [hn, ho]⟩
      rw [Relocate_objs_self, Relocate_objs_self, setMoveState_objs_self,
        setMoveState_objs_self, ho]
    · intro h1 h2 h3 h4 h5
      rw [moveGameObject_removed E x s' (by rw [← ho, ← hm]; exact h1)
        (by rw [← ho]; exact h2) (by rw [← ho]; exact h3) (by rw [hn]; exact h4)
        (by rw [hc]; exact h5)]
      refine ⟨?_, by rw [hn]⟩
      rw [setMoveState_objs_self, setMoveState_objs_self, ho]
  settles := by
    intro x s
    apply moveGameObject_elim E x s (fun r => Settled r.1 x)
    · intro h; exact Or.inl h
    · intro _ _; exact settled_setMoveState_none s x
    · intro _ _ _ _; exact settled_relocate _ x _ (settled_setMoveState_none s x)
    · intro _ _ _ _ _; exact settled_relocate _ x _ (settled_setMoveState_none s x)
    · intro _ _ _ _ _; exact settled_setMoveState_none s x
  settled_noop := by
    intro x s h
    by_cases hm : (s.objs x).map = some s.phase._map
    · have hn : (s.objs x)._moveState = ObjectCellMoveState.MAP_OBJECT_CELL_MOVE_NONE := by
        rcases h with h | h
        · exact absurd hm h
        · exact h
      rw [moveGameObject_notActive E x s hm (by rw [hn]; decide)]
      exact ⟨setMoveState_none_of_none s x hn, rfl⟩
    · rw [moveGameObject_offMap E x s hm]
      exact ⟨rfl, rfl⟩

/-! ### The branches of the dynamic object loop body -/

theorem moveDynamicObject_offMap (E : Collab) (x : Guid) (s : State)
    (hm : (s.objs x).map ≠ some s.phase._map) :
    MapPhase.moveDynamicObject E x s = (s, []) := by
  unfold MapPhase.moveDynamicObject
  rw [if_pos hm]

theorem moveDynamicObject_notActive (E : Collab) (x : Guid) (s : State)
    (hm : (s.objs x).map = some s.phase._map)
    (ha : (s.objs x)._moveState ≠ ObjectCellMoveState.MAP_OBJECT_CELL_MOVE_ACTIVE) :
    MapPhase.moveDynamicObject E x s
      = (s.setMoveState x ObjectCellMoveState.MAP_OBJECT_CELL_MOVE_NONE, []) := by
  unfold MapPhase.moveDynamicObject
  rw [if_neg (not_not.mpr hm), if_pos ha]

theorem moveDynamicObject_notInWorld (E : Collab) (x : Guid) (s : State)
    (hm : (s.objs x).map = some s.phase._map)
    (ha : (s.objs x)._moveState = ObjectCellMoveState.MAP_OBJECT_CELL_MOVE_ACTIVE)
    (hw : (s.objs x).inWorld = false) :
    MapPhase.moveDynamicObject E x s
      = (s.setMoveState x ObjectCellMoveState.MAP_OBJECT_CELL_MOVE_NONE, []) := by
  unfold MapPhase.moveDynamicObject
  rw [if_neg (not_not.mpr hm), if_neg (not_not.mpr ha)]
  simp only [(setMoveState_read s x _).2.1, hw]
  rfl

theorem moveDynamicObject_moved (E : Collab) (x : Guid) (s : State)
    (hm : (s.objs x).map = some s.phase._map)
    (ha : (s.objs x)._moveState = ObjectCellMoveState.MAP_OBJECT_CELL_MOVE_ACTIVE)
    (hw : (s.objs x).inWorld = true)
    (hp : E.DynamicObjectCellRelocation x (MapPhase.newCell E s x) = true) :
    MapPhase.moveDynamicObject E x s
      = ((s.setMoveState x ObjectCellMoveState.MAP_OBJECT_CELL_MOVE_NONE).Relocate x
            (s.objs x)._newPosition,
          [Call.DynamicObjectCellRelocation x (MapPhase.newCell E s x),
           Call.Relocate Kind.dynamicObject x (s.objs x)._newPosition,
           Call.UpdatePositionData Kind.dynamicObject x,
           Call.UpdateObjectVisibility Kind.dynamicObject x false]) := by
  unfold MapPhase.moveDynamicObject
  unfold MapPhase.newCell at hp
  rw [if_neg (not_not.mpr hm), if_neg (not_not.mpr ha)]
  simp only [(setMoveState_read s x _).2.1, (setMoveState_read s x _).2.2.2.1, hw, hp,
    MapPhase.newCell]
  rfl

theorem moveDynamicObject_failed (E : Collab) (x : Guid) (s : State)
    (hm : (s.objs x).map = some s.phase._map)
    (ha : (s.objs x)._moveState = ObjectCellMoveState.MAP_OBJECT_CELL_MOVE_ACTIVE)
    (hw : (s.objs x).inWorld = true)
    (hp : E.DynamicObjectCellRelocation x (MapPhase.newCell E s x) = false) :
    MapPhase.moveDynamicObject E x s
      = (s.setMoveState x ObjectCellMoveState.MAP_OBJECT_CELL_MOVE_NONE,
          [Call.DynamicObjectCellRelocation x (MapPhase.newCell E s x)]) := by
  unfold MapPhase.moveDynamicObject
  unfold MapPhase.newCell at hp
  rw [if_neg (not_not.mpr hm), if_neg (not_not.mpr ha)]
  simp [(setMoveState_read s x _).2.1, (setMoveState_read s x _).2.2.2.1, hw, hp,
    MapPhase.newCell]

/-- Case analysis on the branch the dynamic object loop body takes. -/
theorem moveDynamicObject_elim (E : Collab) (x : Guid) (s : State)
    (P : State × List Call → Prop)
    (offMap : (s.objs x).map ≠ some s.phase._map → P (s, []))
    (skipped : (s.objs x).map = some s.phase._map →
      ((s.objs x)._moveState ≠ ObjectCellMoveState.MAP_OBJECT_CELL_MOVE_ACTIVE
        ∨ (s.objs x).inWorld = false) →
      P (s.setMoveState x ObjectCellMoveState.MAP_OBJECT_CELL_MOVE_NONE, []))
    (moved : (s.objs x).map = some s.phase._map →
      (s.objs x)._moveState = ObjectCellMoveState.MAP_OBJECT_CELL_MOVE_ACTIVE →
      (s.objs x).inWorld = true →
      E.DynamicObjectCellRelocation x (MapPhase.newCell E s x) = true →
      P ((s.setMoveState x ObjectCellMoveState.MAP_OBJECT_CELL_MOVE_NONE).Relocate x
            (s.objs x)._newPosition,
          [Call.DynamicObjectCellRelocation x (MapPhase.newCell E s x),
           Call.Relocate Kind.dynamicObject x (s.objs x)._newPosition,
           Call.UpdatePositionData Kind.dynamicObject x,
           Call.UpdateObjectVisibility Kind.dynamicObject x false]))
    (failed : (s.objs x).map = some s.phase._map →
      (s.objs x)._moveState = ObjectCellMoveState.MAP_OBJECT_CELL_MOVE_ACTIVE →
      (s.objs x).inWorld = true →
      E.DynamicObjectCellRelocation x (MapPhase.newCell E s x) = false →
      P (s.setMoveState x ObjectCellMoveState.MAP_OBJECT_CELL_MOVE_NONE,
          [Call.DynamicObjectCellRelocation x (MapPhase.newCell E s x)])) :
    P (MapPhase.moveDynamicObject E x s) := by
  by_cases hm : (s.objs x).map = some s.phase._map
  · by_cases ha : (s.objs x)._moveState = ObjectCellMoveState.MAP_OBJECT_CELL_MOVE_ACTIVE
    · cases hw : (s.objs x).inWorld
      · rw [moveDynamicObject_notInWorld E x s hm ha hw]
        exact skipped hm (Or.inr hw)
      · cases hp : E.DynamicObjectCellRelocation x (MapPhase.newCell E s x)
        · rw [moveDynamicObject_failed E x s hm ha hw hp]
          exact failed hm ha hw hp
        · rw [moveDynamicObject_moved E x s hm ha hw hp]
          exact moved hm ha hw hp
    · rw [moveDynamicObject_notActive E x s hm ha]
      exact skipped hm (Or.inl ha)
  · rw [moveDynamicObject_offMap E x s hm]
    exact offMap hm

theorem moveDynamicObject_local (E : Collab) : LocalBody (MapPhase.moveDynamicObject E) where
  phase_eq := fun x s => (moveDynamicObject_shape E x s).phase_eq
  frame := fun x s e h => (moveDynamicObject_shape E x s).frame e h
  about := by
    intro x s
    apply moveDynamicObject_elim E x s (fun r => ∀ ev, ev ∈ r.2 → ev.movedObject = some x)
    · intro _; simp
    · intro _ _; simp
    · intro _ _ _ _; simp [Call.movedObject]
    · intro _ _ _ _; simp [Call.movedObject]
  dep := by
    intro x s s' hm ho
    have hn : MapPhase.newCell E s' x = MapPhase.newCell E s x := by
      unfold MapPhase.newCell; rw [ho]
    apply moveDynamicObject_elim E x s
      (fun r => r.1.objs x = (MapPhase.moveDynamicObject E x s').1.objs x
        ∧ r.2 = (MapPhase.moveDynamicObject E x s').2)
    · intro h
      rw [moveDynamicObject_offMap E x s' (by rw [← ho, ← hm]; exact h)]
      exact ⟨ho, rfl⟩
    · intro h1 h2
      have h1' : (s'.objs x).map = some s'.phase._map := by rw [← ho, ← hm]; exact h1
      rcases h2 with h2 | h2
      · rw [moveDynamicObject_notActive E x s' h1' (by rw [← ho]; exact h2)]
        exact ⟨by rw [setMoveState_objs_self, setMoveState_objs_self, ho], rfl⟩
      · by_cases ha : (s'.objs x)._moveState
            = ObjectCellMoveState.MAP_OBJECT_CELL_MOVE_ACTIVE
        · rw [moveDynamicObject_notInWorld E x s' h1' ha (by rw [← ho]; exact h2)]
          exact ⟨by rw [setMoveState_objs_self, setMoveState_objs_self, ho], rfl⟩
        · rw [moveDynamicObject_notActive E x s' h1' ha]
          exact ⟨by rw [setMoveState_objs_self, setMoveState_objs_self, ho], rfl⟩
    · intro h1 h2 h3 h4
      rw [moveDynamicObject_moved E x s' (by rw [← ho, ← hm]; exact h1)
        (by rw [← ho]; exact h2) (by rw [← ho]; exact h3) (by rw [hn]; exact h4)]
      refine ⟨?_, by rw [hn, ho]⟩
      rw [Relocate_objs_self, Relocate_objs_self, setMoveState_objs_self,
        setMoveState_objs_self, ho]
    · intro h1 h2 h3 h4
      rw [moveDynamicObject_failed E x s' (by rw [← ho, ← hm]; exact h1)
        (by rw [← ho]; exact h2) (by rw [← ho]; exact h3) (by rw [hn]; exact h4)]
      refine ⟨?_, by rw [hn]⟩
      rw [setMoveState_objs_self, setMoveState_objs_self, ho]
  settles := by
    intro x s
    apply moveDynamicObject_elim E x s (fun r => Settled r.1 x)
    · intro h; exact Or.inl h
    · intro _ _; exact settled_setMoveState_none s x
    · intro _ _ _ _; exact settled_relocate _ x _ (settled_setMoveState_none s x)
    · intro _ _ _ _; exact settled_setMoveState_none s x
  settled_noop := by
    intro x s h
    by_cases hm : (s.objs x).map = some s.phase._map
    · have hn : (s.objs x)._moveState = ObjectCellMoveState.MAP_OBJECT_CELL_MOVE_NONE := by
        rcases h with h | h
        · exact absurd hm h
        · exact h
      rw [moveDynamicObject_notActive E x s hm (by rw [hn]; decide)]
      exact ⟨setMoveState_none_of_none s x hn, rfl⟩
    · rw [moveDynamicObject_offMap E x s hm]
      exact ⟨rfl, rfl⟩

theorem moveObject_local (k : Kind) (E : Collab) : LocalBody (MapPhase.moveObject k E) := by
  cases k
  · exact moveCreature_local E
  · exact moveGameObject_local E
  · exact moveDynamicObject_local E

/-! ## Loops of local bodies -/

theorem callsAbout_append (e : Guid) (t1 t2 : List Call) :
    callsAbout e (t1 ++ t2) = callsAbout e t1 ++ callsAbout e t2 := by
  unfold callsAbout
  exact List.filter_append _ _

theorem callsAbout_eq_self (e : Guid) (t : List Call)
    (h : ∀ ev, ev ∈ t → ev.movedObject = some e) : callsAbout e t = t := by
  unfold callsAbout
  rw [List.filter_eq_self]
  intro ev hev
  exact decide_eq_true (h ev hev)

theorem callsAbout_eq_nil (e x : Guid) (t : List Call) (hx : e ≠ x)
    (h : ∀ ev, ev ∈ t → ev.movedObject = some x) : callsAbout e t = [] := by
  unfold callsAbout
  rw [List.filter_eq_nil_iff]
  intro ev hev
  rw [h ev hev]
  simp
  exact fun hxe => hx hxe.symm

theorem not_mem_of_callsAbout_eq_nil (e : Guid) (t : List Call) (h : callsAbout e t = [])
    (ev : Call) (hev : ev ∈ t) : ev.movedObject ≠ some e := by
  unfold callsAbout at h
  rw [List.filter_eq_nil_iff] at h
  intro hc
  exact h ev hev (decide_eq_true hc)

theorem Settled.transport {s s' : State} {e : Guid} (h : Settled s e)
    (hp : s'.phase = s.phase) (ho : s'.objs e = s.objs e) : Settled s' e := by
  unfold Settled at *
  rw [hp, ho]
  exact h

theorem forEach_phase {body : Guid → State → State × List Call} (hL : LocalBody body) :
    ∀ (l : List Guid) (s : State), (forEach body l s).1.phase = s.phase := by
  intro l
  induction l with
  | nil => intro s; rfl
  | cons x rest ih =>
    intro s
    show (forEach body rest (body x s).1).1.phase = s.phase
    rw [ih, hL.phase_eq]

theorem forEach_settled {body : Guid → State → State × List Call} (hL : LocalBody body)
    (e : Guid) : ∀ (l : List Guid) (s : State), Settled s e →
      (forEach body l s).1.objs e = s.objs e ∧ callsAbout e (forEach body l s).2 = [] := by
  intro l
  induction l with
  | nil => intro s _; exact ⟨rfl, rfl⟩
  | cons x rest ih =>
    intro s hs
    show (forEach body rest (body x s).1).1.objs e = s.objs e
      ∧ callsAbout e ((body x s).2 ++ (forEach body rest (body x s).1).2) = []
    by_cases hx : e = x
    · subst hx
      have h1 := hL.settled_noop e s hs
      have h2 := ih (body e s).1 (hs.transport (hL.phase_eq e s) h1.1)
      rw [callsAbout_append, h2.1, h2.2, h1.1, h1.2]
      exact ⟨rfl, rfl⟩
    · have h1 := hL.frame x s e hx
      have h2 := ih (body x s).1 (hs.transport (hL.phase_eq x s) h1)
      rw [callsAbout_append, h2.1, h2.2, h1, callsAbout_eq_nil e x _ hx (hL.about x s)]
      exact ⟨rfl, rfl⟩

theorem forEach_not_mem {body : Guid → State → State × List Call} (hL : LocalBody body)
    (e : Guid) : ∀ (l : List Guid) (s : State), e ∉ l →
      (forEach body l s).1.objs e = s.objs e ∧ callsAbout e (forEach body l s).2 = [] := by
  intro l
  induction l with
  | nil => intro s _; exact ⟨rfl, rfl⟩
  | cons x rest ih =>
    intro s hs
    show (forEach body rest (body x s).1).1.objs e = s.objs e
      ∧ callsAbout e ((body x s).2 ++ (forEach body rest (body x s).1).2) = []
    have hx : e ≠ x := fun h => hs (h ▸ List.mem_cons_self _ _)
    have hr : e ∉ rest := fun h => hs (List.mem_cons_of_mem _ h)
    have h2 := ih (body x s).1 hr
    rw [callsAbout_append, h2.1, h2.2, hL.frame x s e hx,
      callsAbout_eq_nil e x _ hx (hL.about x s)]
    exact ⟨rfl, rfl⟩

theorem forEach_mem {body : Guid → State → State × List Call} (hL : LocalBody body)
    (e : Guid) : ∀ (l : List Guid) (s : State), e ∈ l →
      (forEach body l s).1.objs e = (body e s).1.objs e
        ∧ callsAbout e (forEach body l s).2 = (body e s).2 := by
  intro l
  induction l with
  | nil => intro s h; exact absurd h (List.not_mem_nil e)
  | cons x rest ih =>
    intro s hs
    show (forEach body rest (body x s).1).1.objs e = (body e s).1.objs e
      ∧ callsAbout e ((body x s).2 ++ (forEach body rest (body x s).1).2) = (body e s).2
    by_cases hx : e = x
    · subst hx
      have h2 := forEach_settled hL e rest (body e s).1 (hL.settles e s)
      rw [callsAbout_append, h2.1, h2.2, callsAbout_eq_self e _ (hL.about e s),
        List.append_nil]
      exact ⟨rfl, rfl⟩
    · have hr : e ∈ rest := by
        rcases List.mem_cons.mp hs with h | h
        · exact absurd h hx
        · exact h
      have h2 := ih (body x s).1 hr
      have hd := hL.dep e (body x s).1 s (by rw [hL.phase_eq x s]) (hL.frame x s e hx)
      rw [callsAbout_append, h2.1, h2.2, callsAbout_eq_nil e x _ hx (hL.about x s),
        hd.1, hd.2]
      exact ⟨rfl, rfl⟩

/-! ## The drains, object by object -/

/-- The state a drain runs its loop from: the state with the guard of the list set. -/
theorem drain_eq (k : Kind) (E : Collab) (s : State) :
    ∃ s1 : State, s1.phase._map = s.phase._map ∧ s1.objs = s.objs
      ∧ ((MapPhase.drain k E s).1.objs
          = (forEach (MapPhase.moveObject k E) (MapPhase.moveList k s.phase) s1).1.objs)
      ∧ (MapPhase.drain k E s).2
          = (forEach (MapPhase.moveObject k E) (MapPhase.moveList k s.phase) s1).2 := by
  cases k
  · exact ⟨{ s with phase := { s.phase with _creatureToMoveLock := true } }, rfl, rfl, rfl, rfl⟩
  · exact ⟨{ s with phase := { s.phase with _gameObjectsToMoveLock := true } },
      rfl, rfl, rfl, rfl⟩
  · exact ⟨{ s with phase := { s.phase with _dynamicObjectsToMoveLock := true } },
      rfl, rfl, rfl, rfl⟩

/-- A queued object ends the drain as one run of the loop body on it leaves it, and the
calls of the drain about it are those of that one run, however often it is queued. -/
theorem drain_mem (k : Kind) (E : Collab) (s : State) (e : Guid)
    (h : e ∈ MapPhase.moveList k s.phase) :
    (MapPhase.drain k E s).1.objs e = (MapPhase.moveObject k E e s).1.objs e
      ∧ callsAbout e (MapPhase.drain k E s).2 = (MapPhase.moveObject k E e s).2 := by
  obtain ⟨s1, hm, ho, h1, h2⟩ := drain_eq k E s
  have hL := moveObject_local k E
  have hf := forEach_mem hL e (MapPhase.moveList k s.phase) s1 h
  have hd := hL.dep e s1 s hm (by rw [ho])
  rw [h1, h2, hf.1, hf.2, hd.1, hd.2]
  exact ⟨rfl, rfl⟩

/-- An object that is not queued is left alone. -/
theorem drain_not_mem (k : Kind) (E : Collab) (s : State) (e : Guid)
    (h : e ∉ MapPhase.moveList k s.phase) :
    (MapPhase.drain k E s).1.objs e = s.objs e
      ∧ callsAbout e (MapPhase.drain k E s).2 = [] := by
  obtain ⟨s1, _, ho, h1, h2⟩ := drain_eq k E s
  have hf := forEach_not_mem (moveObject_local k E) e (MapPhase.moveList k s.phase) s1 h
  rw [h1, h2, hf.1, hf.2, ho]
  exact ⟨rfl, rfl⟩

/-- A settled object is left alone, queued or not. -/
theorem drain_settled (k : Kind) (E : Collab) (s : State) (e : Guid) (h : Settled s e) :
    (MapPhase.drain k E s).1.objs e = s.objs e
      ∧ callsAbout e (MapPhase.drain k E s).2 = [] := by
  obtain ⟨s1, hm, ho, h1, h2⟩ := drain_eq k E s
  have hs1 : Settled s1 e := by
    unfold Settled at *
    rw [hm, ho]
    exact h
  have hf := forEach_settled (moveObject_local k E) e (MapPhase.moveList k s.phase) s1 hs1
  rw [h1, h2, hf.1, hf.2, ho]
  exact ⟨rfl, rfl⟩

/-- The phase a drain leaves: the list of its kind cleared and its guard reset, nothing else
changed. -/
theorem MoveAllCreaturesInMoveList_phase (E : Collab) (s : State) :
    (MapPhase.MoveAllCreaturesInMoveList E s).1.phase
      = { s.phase with _creaturesToMove := [], _creatureToMoveLock := false } := by
  unfold MapPhase.MoveAllCreaturesInMoveList
  simp only [forEach_phase (moveCreature_local E)]

theorem MoveAllGameObjectsInMoveList_phase (E : Collab) (s : State) :
    (MapPhase.MoveAllGameObjectsInMoveList E s).1.phase
      = { s.phase with _gameObjectsToMove := [], _gameObjectsToMoveLock := false } := by
  unfold MapPhase.MoveAllGameObjectsInMoveList
  simp only [forEach_phase (moveGameObject_local E)]

theorem MoveAllDynamicObjectsInMoveList_phase (E : Collab) (s : State) :
    (MapPhase.MoveAllDynamicObjectsInMoveList E s).1.phase
      = { s.phase with _dynamicObjectsToMove := [], _dynamicObjectsToMoveLock := false } := by
  unfold MapPhase.MoveAllDynamicObjectsInMoveList
  simp only [forEach_phase (moveDynamicObject_local E)]

/-! ## The claims -/

/-- C1: each of the three drains returns with its move list empty and its reentrancy guard
false, whatever the list held and whatever state the queued objects are in; hence after
`Update` the three lists are empty and the three guards are false. -/
theorem drains_clear_lists_and_guards (E : Collab) (t_diff s_diff : Nat) (s : State) :
    (∀ k : Kind,
        MapPhase.moveList k (MapPhase.drain k E s).1.phase = []
          ∧ MapPhase.moveLock k (MapPhase.drain k E s).1.phase = false)
      ∧ (∀ k : Kind,
        MapPhase.moveList k (MapPhase.Update E t_diff s_diff s).1.phase = []
          ∧ MapPhase.moveLock k (MapPhase.Update E t_diff s_diff s).1.phase = false) := by
  constructor
  · intro k
    cases k
    · show MapPhase.moveList Kind.creature (MapPhase.MoveAllCreaturesInMoveList E s).1.phase = []
        ∧ MapPhase.moveLock Kind.creature (MapPhase.MoveAllCreaturesInMoveList E s).1.phase
          = false
      rw [MoveAllCreaturesInMoveList_phase]
      exact ⟨rfl, rfl⟩
    · show MapPhase.moveList Kind.gameObject
          (MapPhase.MoveAllGameObjectsInMoveList E s).1.phase = []
        ∧ MapPhase.moveLock Kind.gameObject
          (MapPhase.MoveAllGameObjectsInMoveList E s).1.phase = false
      rw [MoveAllGameObjectsInMoveList_phase]
      exact ⟨rfl, rfl⟩
    · show MapPhase.moveList Kind.dynamicObject
          (MapPhase.MoveAllDynamicObjectsInMoveList E s).1.phase = []
        ∧ MapPhase.moveLock Kind.dynamicObject
          (MapPhase.MoveAllDynamicObjectsInMoveList E s).1.phase = false
      rw [MoveAllDynamicObjectsInMoveList_phase]
      exact ⟨rfl, rfl⟩
  · intro k
    unfold MapPhase.Update
    simp only [MoveAllDynamicObjectsInMoveList_phase, MoveAllGameObjectsInMoveList_phase,
      MoveAllCreaturesInMoveList_phase]
    cases k <;> exact ⟨rfl, rfl⟩

/-! ### Commit on the primary relocation -/

theorem moveObject_moved_state (k : Kind) (E : Collab) (s : State) (e : Guid)
    (hm : (s.objs e).map = some s.phase._map)
    (ha : (s.objs e)._moveState = ObjectCellMoveState.MAP_OBJECT_CELL_MOVE_ACTIVE)
    (hw : (s.objs e).inWorld = true)
    (hp : MapPhase.cellRelocation k E e (MapPhase.newCell E s e) = true) :
    (MapPhase.moveObject k E e s).1
      = (s.setMoveState e ObjectCellMoveState.MAP_OBJECT_CELL_MOVE_NONE).Relocate e
          (s.objs e)._newPosition := by
  cases k
  · show (MapPhase.moveCreature E e s).1 = _
    rw [moveCreature_moved E e s hm ha hw hp]
  · show (MapPhase.moveGameObject E e s).1 = _
    rw [moveGameObject_moved E e s hm ha hw hp]
  · show (MapPhase.moveDynamicObject E e s).1 = _
    rw [moveDynamicObject_moved E e s hm ha hw hp]

theorem relocated_read (s : State) (e : Guid) (p : Position) :
    (((s.setMoveState e ObjectCellMoveState.MAP_OBJECT_CELL_MOVE_NONE).Relocate e p).objs
        e).position = p
      ∧ (((s.setMoveState e ObjectCellMoveState.MAP_OBJECT_CELL_MOVE_NONE).Relocate e p).objs
        e)._moveState = ObjectCellMoveState.MAP_OBJECT_CELL_MOVE_NONE := by
  refine ⟨(Relocate_read _ e p).2.1, ?_⟩
  rw [(Relocate_read _ e p).2.2.1]
  exact (setMoveState_read s e _).2.2.2.2.2.2.2

/-- C2, as stated, fails: creature 7 is queued exactly once with move state ACTIVE and its
destination cell is loadable, but it is on map 2 while the phase belongs to map 1; after the
drain it is still at the origin, not at its pending position (100, 200, 50), and its move
state is still ACTIVE. -/
theorem pending_position_counterexample :
    List.count 7 (MapPhase.moveList Kind.creature
        (exampleState (exampleMover 2 ObjectCellMoveState.MAP_OBJECT_CELL_MOVE_ACTIVE false)
          [7]).phase) = 1
      ∧ ((exampleState (exampleMover 2 ObjectCellMoveState.MAP_OBJECT_CELL_MOVE_ACTIVE false)
          [7]).objs 7)._moveState = ObjectCellMoveState.MAP_OBJECT_CELL_MOVE_ACTIVE
      ∧ MapPhase.cellRelocation Kind.creature allLoaded 7
          (MapPhase.newCell allLoaded
            (exampleState (exampleMover 2 ObjectCellMoveState.MAP_OBJECT_CELL_MOVE_ACTIVE false)
              [7]) 7) = true
      ∧ ((MapPhase.drain Kind.creature allLoaded
          (exampleState (exampleMover 2 ObjectCellMoveState.MAP_OBJECT_CELL_MOVE_ACTIVE false)
            [7])).1.objs 7).position = ⟨0, 0, 0, 0⟩
      ∧ ((MapPhase.drain Kind.creature allLoaded
          (exampleState (exampleMover 2 ObjectCellMoveState.MAP_OBJECT_CELL_MOVE_ACTIVE false)
            [7])).1.objs 7).position
          ≠ ((exampleState (exampleMover 2 ObjectCellMoveState.MAP_OBJECT_CELL_MOVE_ACTIVE false)
            [7]).objs 7)._newPosition
      ∧ ((MapPhase.drain Kind.creature allLoaded
          (exampleState (exampleMover 2 ObjectCellMoveState.MAP_OBJECT_CELL_MOVE_ACTIVE false)
            [7])).1.objs 7)._moveState = ObjectCellMoveState.MAP_OBJECT_CELL_MOVE_ACTIVE := by
  decide

/-- C2, amended: an object that is queued exactly once in the move list of its kind, is on
the map of the phase, is in world, has move state ACTIVE and whose destination cell is
loadable ends the drain at its pending position `_newPosition` with move state NONE. -/
theorem relocated_to_pending_position (k : Kind) (E : Collab) (s : State) (e : Guid)
    (hq : List.count e (MapPhase.moveList k s.phase) = 1)
    (hm : (s.objs e).map = some s.phase._map)
    (hw : (s.objs e).inWorld = true)
    (ha : (s.objs e)._moveState = ObjectCellMoveState.MAP_OBJECT_CELL_MOVE_ACTIVE)
    (hp : MapPhase.cellRelocation k E e (MapPhase.newCell E s e) = true) :
    ((MapPhase.drain k E s).1.objs e).position = (s.objs e)._newPosition
      ∧ ((MapPhase.drain k E s).1.objs e)._moveState
          = ObjectCellMoveState.MAP_OBJECT_CELL_MOVE_NONE := by
  have hmem : e ∈ MapPhase.moveList k s.phase :=
    List.count_pos_iff.mp (by rw [hq]; exact Nat.one_pos)
  rw [(drain_mem k E s e hmem).1, moveObject_moved_state k E s e hm ha hw hp]
  exact relocated_read s e _

/-- Scenario A: a creature queued once with pending position (100, 200, 50), ACTIVE, in world
on the map of the phase, all cells loaded: after the drain it is at (100, 200, 50) with move
state NONE. -/
theorem relocated_to_pending_position_witness :
    ((MapPhase.drain Kind.creature allLoaded
        (exampleState (exampleMover 1 ObjectCellMoveState.MAP_OBJECT_CELL_MOVE_ACTIVE false)
          [7])).1.objs 7).position = ⟨100, 200, 50, 0⟩
      ∧ ((MapPhase.drain Kind.creature allLoaded
        (exampleState (exampleMover 1 ObjectCellMoveState.MAP_OBJECT_CELL_MOVE_ACTIVE false)
          [7])).1.objs 7)._moveState = ObjectCellMoveState.MAP_OBJECT_CELL_MOVE_NONE :=
  relocated_to_pending_position Kind.creature allLoaded
    (exampleState (exampleMover 1 ObjectCellMoveState.MAP_OBJECT_CELL_MOVE_ACTIVE false) [7]) 7
    (by decide) (by decide) (by decide) (by decide) (by decide)

/-! ### Skipped entries -/

theorem no_placement_of_callsAbout_nil (e : Guid) (t : List Call) (h : callsAbout e t = []) :
    ∀ ev, ev ∈ t → ev.isPlacement = true → ev.movedObject ≠ some e :=
  fun ev hev _ => not_mem_of_callsAbout_eq_nil e t h ev hev

theorem moveObject_notActive (k : Kind) (E : Collab) (s : State) (e : Guid)
    (hm : (s.objs e).map = some s.phase._map)
    (ha : (s.objs e)._moveState ≠ ObjectCellMoveState.MAP_OBJECT_CELL_MOVE_ACTIVE) :
    MapPhase.moveObject k E e s
      = (s.setMoveState e ObjectCellMoveState.MAP_OBJECT_CELL_MOVE_NONE, []) := by
  cases k
  · exact moveCreature_notActive E e s hm ha
  · exact moveGameObject_notActive E e s hm ha
  · exact moveDynamicObject_notActive E e s hm ha

/-- C3, as stated, fails: creature 7 is queued with a move state that is not ACTIVE
(INACTIVE), but it is on map 2 while the phase belongs to map 1. The loop body and the whole
drain skip it at the first `continue` and write nothing: its move state is still INACTIVE
afterwards, not NONE. -/
theorem not_active_off_map_counterexample :
    7 ∈ MapPhase.moveList Kind.creature
        (exampleState (exampleMover 2 ObjectCellMoveState.MAP_OBJECT_CELL_MOVE_INACTIVE false)
          [7]).phase
      ∧ ((exampleState (exampleMover 2 ObjectCellMoveState.MAP_OBJECT_CELL_MOVE_INACTIVE false)
          [7]).objs 7)._moveState ≠ ObjectCellMoveState.MAP_OBJECT_CELL_MOVE_ACTIVE
      ∧ ((MapPhase.moveCreature allLoaded 7
          (exampleState (exampleMover 2 ObjectCellMoveState.MAP_OBJECT_CELL_MOVE_INACTIVE false)
            [7])).1.objs 7)._moveState = ObjectCellMoveState.MAP_OBJECT_CELL_MOVE_INACTIVE
      ∧ ((MapPhase.drain Kind.creature allLoaded
          (exampleState (exampleMover 2 ObjectCellMoveState.MAP_OBJECT_CELL_MOVE_INACTIVE false)
            [7])).1.objs 7)._moveState = ObjectCellMoveState.MAP_OBJECT_CELL_MOVE_INACTIVE
      ∧ ((MapPhase.drain Kind.creature allLoaded
          (exampleState (exampleMover 2 ObjectCellMoveState.MAP_OBJECT_CELL_MOVE_INACTIVE false)
            [7])).1.objs 7)._moveState ≠ ObjectCellMoveState.MAP_OBJECT_CELL_MOVE_NONE := by
  decide

/-- C3, amended: for an object that is queued in the move list of its kind, is on the map of
the phase and has a move state other than ACTIVE, the loop body run on it (state `s` is the
state in which its entry is reached) leaves its position as it is, issues no call at all, so
no cell relocation and no respawn relocation, and sets its move state to NONE. Likewise
for a whole drain started at `s`: the position is unchanged, no call of the drain is about
the object, and its move state is NONE afterwards. -/
theorem not_active_entry_skipped (k : Kind) (E : Collab) (s : State) (e : Guid)
    (hq : e ∈ MapPhase.moveList k s.phase)
    (hm : (s.objs e).map = some s.phase._map)
    (h : (s.objs e)._moveState ≠ ObjectCellMoveState.MAP_OBJECT_CELL_MOVE_ACTIVE) :
    (((MapPhase.moveObject k E e s).1.objs e).position = (s.objs e).position
      ∧ (MapPhase.moveObject k E e s).2 = []
      ∧ ((MapPhase.moveObject k E e s).1.objs e)._moveState
          = ObjectCellMoveState.MAP_OBJECT_CELL_MOVE_NONE)
    ∧ (((MapPhase.drain k E s).1.objs e).position = (s.objs e).position
      ∧ (∀ ev, ev ∈ (MapPhase.drain k E s).2 → ev.isPlacement = true →
          ev.movedObject ≠ some e)
      ∧ callsAbout e (MapPhase.drain k E s).2 = []
      ∧ ((MapPhase.drain k E s).1.objs e)._moveState
          = ObjectCellMoveState.MAP_OBJECT_CELL_MOVE_NONE) := by
  have hd := drain_mem k E s e hq
  have hc : callsAbout e (MapPhase.drain k E s).2 = [] := by
    rw [hd.2, moveObject_notActive k E s e hm h]
  rw [hd.1, moveObject_notActive k E s e hm h]
  exact ⟨⟨(setMoveState_read s e _).2.2.1, rfl, (setMoveState_read s e _).2.2.2.2.2.2.2⟩,
    (setMoveState_read s e _).2.2.1, no_placement_of_callsAbout_nil e _ hc, hc,
    (setMoveState_read s e _).2.2.2.2.2.2.2⟩

/-- A game object on the map of the phase, queued twice with move state INACTIVE, all cells
loaded: it stays at the origin, the drain calls nothing about it, and its move state is
reset to NONE. -/
theorem not_active_entry_skipped_witness :
    ((MapPhase.drain Kind.gameObject allLoaded
        (exampleState (exampleMover 1 ObjectCellMoveState.MAP_OBJECT_CELL_MOVE_INACTIVE false)
          [7, 7])).1.objs 7).position = ⟨0, 0, 0, 0⟩
      ∧ callsAbout 7 (MapPhase.drain Kind.gameObject allLoaded
        (exampleState (exampleMover 1 ObjectCellMoveState.MAP_OBJECT_CELL_MOVE_INACTIVE false)
          [7, 7])).2 = []
      ∧ ((MapPhase.drain Kind.gameObject allLoaded
        (exampleState (exampleMover 1 ObjectCellMoveState.MAP_OBJECT_CELL_MOVE_INACTIVE false)
          [7, 7])).1.objs 7)._moveState = ObjectCellMoveState.MAP_OBJECT_CELL_MOVE_NONE :=
  have h := not_active_entry_skipped Kind.gameObject allLoaded
    (exampleState (exampleMover 1 ObjectCellMoveState.MAP_OBJECT_CELL_MOVE_INACTIVE false)
      [7, 7])
    7 (by decide) (by decide) (by decide)
  ⟨h.2.1, h.2.2.2.1, h.2.2.2.2⟩

/-- C4: an object whose map is not the map of the phase when the drain starts is not
relocated by the drain: no call of the drain is about it, so no placement primitive is
called for it, its position is unchanged and its move state is exactly what it was; the
whole object is unchanged. -/
theorem off_map_object_untouched (k : Kind) (E : Collab) (s : State) (e : Guid)
    (h : (s.objs e).map ≠ some s.phase._map) :
    (∀ ev, ev ∈ (MapPhase.drain k E s).2 → ev.isPlacement = true → ev.movedObject ≠ some e)
      ∧ callsAbout e (MapPhase.drain k E s).2 = []
      ∧ ((MapPhase.drain k E s).1.objs e).position = (s.objs e).position
      ∧ ((MapPhase.drain k E s).1.objs e)._moveState = (s.objs e)._moveState
      ∧ (MapPhase.drain k E s).1.objs e = s.objs e := by
  have h2 := drain_settled k E s e (Or.inl h)
  refine ⟨no_placement_of_callsAbout_nil e _ h2.2, h2.2, ?_, ?_, h2.1⟩
  · rw [h2.1]
  · rw [h2.1]

/-- A creature on map 2 queued in the phase of map 1 with move state ACTIVE, all cells
loaded: the drain calls nothing, the creature stays at the origin and stays ACTIVE. -/
theorem off_map_object_untouched_witness :
    (MapPhase.drain Kind.creature allLoaded
        (exampleState (exampleMover 2 ObjectCellMoveState.MAP_OBJECT_CELL_MOVE_ACTIVE false)
          [7])).2 = []
      ∧ callsAbout 7 (MapPhase.drain Kind.creature allLoaded
        (exampleState (exampleMover 2 ObjectCellMoveState.MAP_OBJECT_CELL_MOVE_ACTIVE false)
          [7])).2 = []
      ∧ ((MapPhase.drain Kind.creature allLoaded
        (exampleState (exampleMover 2 ObjectCellMoveState.MAP_OBJECT_CELL_MOVE_ACTIVE false)
          [7])).1.objs 7).position = ⟨0, 0, 0, 0⟩
      ∧ ((MapPhase.drain Kind.creature allLoaded
        (exampleState (exampleMover 2 ObjectCellMoveState.MAP_OBJECT_CELL_MOVE_ACTIVE false)
          [7])).1.objs 7)._moveState = ObjectCellMoveState.MAP_OBJECT_CELL_MOVE_ACTIVE :=
  have h := off_map_object_untouched Kind.creature allLoaded
    (exampleState (exampleMover 2 ObjectCellMoveState.MAP_OBJECT_CELL_MOVE_ACTIVE false) [7])
    7 (by decide)
  ⟨by decide, h.2.1, h.2.2.1, h.2.2.2.1⟩

/-! ### Failed relocations -/

theorem CreatureRespawnRelocation_result (E : Collab) (e : Guid) (d : Bool) (s : State) :
    (CreatureRespawnRelocation E e d s).1
      = E.CreatureCellRelocation e (MapPhase.respawnCell E s e) := by
  unfold CreatureRespawnRelocation MapPhase.respawnCell
  cases h : E.CreatureCellRelocation e
    (E.mkCell (s.objs e).respawnPosition.m_positionX (s.objs e).respawnPosition.m_positionY)
  · simp [h]
  · simp [h]

theorem GameObjectRespawnRelocation_result (E : Collab) (e : Guid) (d : Bool) (s : State) :
    (GameObjectRespawnRelocation E e d s).1
      = E.GameObjectCellRelocation e (MapPhase.respawnCell E s e) := by
  unfold GameObjectRespawnRelocation MapPhase.respawnCell
  cases h : E.GameObjectCellRelocation e
    (E.mkCell (s.objs e).respawnPosition.m_positionX (s.objs e).respawnPosition.m_positionY)
  · simp [h]
  · simp [h]

theorem isRemoveListOf_about (e : Guid) (ev : Call) (h : Call.isRemoveListOf e ev = true) :
    ev.movedObject = some e := by
  cases ev <;> simp_all [Call.isRemoveListOf, Call.movedObject]

theorem isPetRemoveOf_about (e : Guid) (ev : Call) (h : Call.isPetRemoveOf e ev = true) :
    ev.movedObject = some e := by
  cases ev <;> simp_all [Call.isPetRemoveOf, Call.movedObject]

theorem filter_callsAbout (e : Guid) (p : Call → Bool)
    (hp : ∀ ev, p ev = true → ev.movedObject = some e) (t : List Call) :
    (callsAbout e t).filter p = t.filter p := by
  unfold callsAbout
  rw [List.filter_filter]
  congr 1
  funext ev
  cases h : p ev
  · rfl
  · simp [hp ev h]

theorem countP_callsAbout (e : Guid) (p : Call → Bool)
    (hp : ∀ ev, p ev = true → ev.movedObject = some e) (t : List Call) :
    List.countP p t = List.countP p (callsAbout e t) := by
  rw [List.countP_eq_length_filter, List.countP_eq_length_filter, filter_callsAbout e p hp]

theorem count_callsAbout (e : Guid) (c : Call) (hc : c.movedObject = some e)
    (t : List Call) : List.count c t = List.count c (callsAbout e t) := by
  unfold List.count
  apply countP_callsAbout
  intro ev hev
  have : ev = c := by simpa using hev
  rw [this, hc]

/-- C5: a creature that is not a pet, or a game object, queued (any number of times) on the
map of the phase, ACTIVE and in world, for which the cell relocation and the respawn
relocation both fail, is handed to `AddObjectToRemoveList` exactly once by the drain, and
the drain leaves its position as it was. -/
theorem removed_exactly_once (k : Kind) (E : Collab) (s : State) (e : Guid)
    (hq : e ∈ MapPhase.moveList k s.phase)
    (hm : (s.objs e).map = some s.phase._map)
    (ha : (s.objs e)._moveState = ObjectCellMoveState.MAP_OBJECT_CELL_MOVE_ACTIVE)
    (hw : (s.objs e).inWorld = true)
    (hp : MapPhase.cellRelocation k E e (MapPhase.newCell E s e) = false)
    (hr : (k = Kind.creature ∧ (s.objs e).isPet = false
            ∧ (CreatureRespawnRelocation E e false s).1 = false)
          ∨ (k = Kind.gameObject ∧ (GameObjectRespawnRelocation E e false s).1 = false)) :
    List.countP (Call.isRemoveListOf e) (MapPhase.drain k E s).2 = 1
      ∧ List.count (Call.AddObjectToRemoveList k e) (MapPhase.drain k E s).2 = 1
      ∧ ((MapPhase.drain k E s).1.objs e).position = (s.objs e).position := by
  have hd := drain_mem k E s e hq
  rw [countP_callsAbout e _ (isRemoveListOf_about e),
    count_callsAbout e (Call.AddObjectToRemoveList k e) rfl, hd.1, hd.2]
  rcases hr with ⟨rfl, hpet, hr⟩ | ⟨rfl, hr⟩
  · rw [CreatureRespawnRelocation_result] at hr
    show List.countP _ (MapPhase.moveCreature E e s).2 = 1
      ∧ List.count _ (MapPhase.moveCreature E e s).2 = 1
      ∧ ((MapPhase.moveCreature E e s).1.objs e).position = _
    rw [moveCreature_removed E e s hm ha hw hp hr hpet]
    refine ⟨?_, ?_, (setMoveState_read s e _).2.2.1⟩
    · simp [Call.isRemoveListOf]
    · simp
  · rw [GameObjectRespawnRelocation_result] at hr
    show List.countP _ (MapPhase.moveGameObject E e s).2 = 1
      ∧ List.count _ (MapPhase.moveGameObject E e s).2 = 1
      ∧ ((MapPhase.moveGameObject E e s).1.objs e).position = _
    rw [moveGameObject_removed E e s hm ha hw hp hr]
    refine ⟨?_, ?_, (setMoveState_read s e _).2.2.1⟩
    · simp [Call.isRemoveListOf]
    · simp

/-- Scenario D: a creature that is not a pet, queued three times, no cell loaded: the drain
calls `AddObjectToRemoveList` on it once and leaves it at the origin. -/
theorem removed_exactly_once_witness :
    List.countP (Call.isRemoveListOf 7) (MapPhase.drain Kind.creature noneLoaded
        (exampleState (exampleMover 1 ObjectCellMoveState.MAP_OBJECT_CELL_MOVE_ACTIVE false)
          [7, 7, 7])).2 = 1
      ∧ List.count (Call.AddObjectToRemoveList Kind.creature 7)
        (MapPhase.drain Kind.creature noneLoaded
          (exampleState (exampleMover 1 ObjectCellMoveState.MAP_OBJECT_CELL_MOVE_ACTIVE false)
            [7, 7, 7])).2 = 1
      ∧ ((MapPhase.drain Kind.creature noneLoaded
        (exampleState (exampleMover 1 ObjectCellMoveState.MAP_OBJECT_CELL_MOVE_ACTIVE false)
          [7, 7, 7])).1.objs 7).position = ⟨0, 0, 0, 0⟩ :=
  removed_exactly_once Kind.creature noneLoaded
    (exampleState (exampleMover 1 ObjectCellMoveState.MAP_OBJECT_CELL_MOVE_ACTIVE false)
      [7, 7, 7]) 7
    (by decide) (by decide) (by decide) (by decide) (by decide)
    (Or.inl ⟨rfl, by decide, by decide⟩)

/-- C6: a pet queued (any number of times) on the map of the phase, ACTIVE and in world, for
which the cell relocation and the respawn relocation both fail: the calls of `Pet::Remove`
the drain makes on it are exactly one, with `PET_SAVE_NOT_IN_SLOT`, and the drain never
calls `AddObjectToRemoveList` on it. -/
theorem pet_despawned_exactly_once (E : Collab) (s : State) (e : Guid)
    (hq : e ∈ s.phase._creaturesToMove)
    (hm : (s.objs e).map = some s.phase._map)
    (ha : (s.objs e)._moveState = ObjectCellMoveState.MAP_OBJECT_CELL_MOVE_ACTIVE)
    (hw : (s.objs e).inWorld = true)
    (hpet : (s.objs e).isPet = true)
    (hp : E.CreatureCellRelocation e (MapPhase.newCell E s e) = false)
    (hr : (CreatureRespawnRelocation E e false s).1 = false) :
    (MapPhase.MoveAllCreaturesInMoveList E s).2.filter (Call.isPetRemoveOf e)
        = [Call.PetRemove e PetSaveMode.PET_SAVE_NOT_IN_SLOT true]
      ∧ List.countP (Call.isRemoveListOf e) (MapPhase.MoveAllCreaturesInMoveList E s).2 = 0
      ∧ ∀ k : Kind, Call.AddObjectToRemoveList k e
          ∉ (MapPhase.MoveAllCreaturesInMoveList E s).2 := by
  have hd := drain_mem Kind.creature E s e hq
  have hd2 : callsAbout e (MapPhase.MoveAllCreaturesInMoveList E s).2
      = (MapPhase.moveCreature E e s).2 := hd.2
  rw [CreatureRespawnRelocation_result] at hr
  rw [moveCreature_petRemoved E e s hm ha hw hp hr hpet] at hd2
  have h0 : List.countP (Call.isRemoveListOf e)
      (MapPhase.MoveAllCreaturesInMoveList E s).2 = 0 := by
    rw [countP_callsAbout e _ (isRemoveListOf_about e), hd2]
    simp [Call.isRemoveListOf]
  refine ⟨?_, h0, ?_⟩
  · rw [← filter_callsAbout e _ (isPetRemoveOf_about e), hd2]
    simp [Call.isPetRemoveOf, List.filter]
  · intro k hk
    rw [List.countP_eq_zero] at h0
    exact h0 _ hk (by simp [Call.isRemoveListOf])

/-- Scenario C: a pet queued twice, no cell loaded: one `Pet::Remove` with
`PET_SAVE_NOT_IN_SLOT`, no `AddObjectToRemoveList`. -/
theorem pet_despawned_exactly_once_witness :
    (MapPhase.MoveAllCreaturesInMoveList noneLoaded
        (exampleState (exampleMover 1 ObjectCellMoveState.MAP_OBJECT_CELL_MOVE_ACTIVE true)
          [7, 7])).2.filter (Call.isPetRemoveOf 7)
        = [Call.PetRemove 7 PetSaveMode.PET_SAVE_NOT_IN_SLOT true]
      ∧ List.countP (Call.isRemoveListOf 7) (MapPhase.MoveAllCreaturesInMoveList noneLoaded
        (exampleState (exampleMover 1 ObjectCellMoveState.MAP_OBJECT_CELL_MOVE_ACTIVE true)
          [7, 7])).2 = 0 :=
  have h := pet_despawned_exactly_once noneLoaded
    (exampleState (exampleMover 1 ObjectCellMoveState.MAP_OBJECT_CELL_MOVE_ACTIVE true) [7, 7])
    7 (by decide) (by decide) (by decide) (by decide) (by decide) (by decide) (by decide)
  ⟨h.1, h.2.1⟩

/-! ### Properties of every call of a loop -/

theorem forEach_all {α : Type} (body : α → State → State × List Call) (P : Call → Prop)
    (h : ∀ a s ev, ev ∈ (body a s).2 → P ev) :
    ∀ (l : List α) (s : State) (ev : Call), ev ∈ (forEach body l s).2 → P ev := by
  intro l
  induction l with
  | nil => intro s ev hev; exact absurd hev (List.not_mem_nil ev)
  | cons x rest ih =>
    intro s ev hev
    rcases List.mem_append.mp hev with h1 | h1
    · exact h x s ev h1
    · exact ih _ ev h1

theorem moveDynamicObject_no_respawn (E : Collab) (x : Guid) (s : State) :
    ∀ ev, ev ∈ (MapPhase.moveDynamicObject E x s).2 → ev.isRespawnRelocation = false := by
  apply moveDynamicObject_elim E x s (fun r => ∀ ev, ev ∈ r.2 → ev.isRespawnRelocation = false)
  · intro _; simp
  · intro _ _; simp
  · intro _ _ _ _; simp [Call.isRespawnRelocation]
  · intro _ _ _ _; simp [Call.isRespawnRelocation]

/-- C7: a creature or game object queued on the map of the phase, ACTIVE and in world, whose
cell relocation fails and whose respawn relocation succeeds: after the two placement calls,
the calls about it are the commit of the respawn coordinates, the refresh of the
position-derived data and the visibility refresh that is not forced; it is not handed to
`AddObjectToRemoveList`; after the drain it is at its respawn coordinates with move state
NONE. -/
theorem respawn_fallback_commits (k : Kind) (E : Collab) (s : State) (e : Guid)
    (hq : e ∈ MapPhase.moveList k s.phase)
    (hm : (s.objs e).map = some s.phase._map)
    (ha : (s.objs e)._moveState = ObjectCellMoveState.MAP_OBJECT_CELL_MOVE_ACTIVE)
    (hw : (s.objs e).inWorld = true)
    (hp : MapPhase.cellRelocation k E e (MapPhase.newCell E s e) = false)
    (hr : (k = Kind.creature ∧ (CreatureRespawnRelocation E e false s).1 = true)
          ∨ (k = Kind.gameObject ∧ (GameObjectRespawnRelocation E e false s).1 = true)) :
    ((MapPhase.drain k E s).1.objs e).position = (s.objs e).respawnPosition
      ∧ ((MapPhase.drain k E s).1.objs e)._moveState
          = ObjectCellMoveState.MAP_OBJECT_CELL_MOVE_NONE
      ∧ (callsAbout e (MapPhase.drain k E s).2).drop 2
          = [Call.Relocate k e (s.objs e).respawnPosition, Call.UpdatePositionData k e,
             Call.UpdateObjectVisibility k e false]
      ∧ List.countP (Call.isRemoveListOf e) (MapPhase.drain k E s).2 = 0 := by
  have hd := drain_mem k E s e hq
  rw [countP_callsAbout e _ (isRemoveListOf_about e), hd.1, hd.2]
  rcases hr with ⟨rfl, hr⟩ | ⟨rfl, hr⟩
  · rw [CreatureRespawnRelocation_result] at hr
    show ((MapPhase.moveCreature E e s).1.objs e).position = _
      ∧ ((MapPhase.moveCreature E e s).1.objs e)._moveState = _
      ∧ (MapPhase.moveCreature E e s).2.drop 2 = _
      ∧ List.countP _ (MapPhase.moveCreature E e s).2 = 0
    rw [moveCreature_respawned E e s hm ha hw hp hr]
    refine ⟨(relocated_read s e _).1, (relocated_read s e _).2, rfl, ?_⟩
    simp [Call.isRemoveListOf]
  · rw [GameObjectRespawnRelocation_result] at hr
    show ((MapPhase.moveGameObject E e s).1.objs e).position = _
      ∧ ((MapPhase.moveGameObject E e s).1.objs e)._moveState = _
      ∧ (MapPhase.moveGameObject E e s).2.drop 2 = _
      ∧ List.countP _ (MapPhase.moveGameObject E e s).2 = 0
    rw [moveGameObject_respawned E e s hm ha hw hp hr]
    refine ⟨(relocated_read s e _).1, (relocated_read s e _).2, rfl, ?_⟩
    simp [Call.isRemoveListOf]

/-- Scenario B: a game object whose destination cell (1, 2) is not loaded and whose respawn
cell (-3, -3) is: after the drain it is at its respawn coordinates (-300, -300, 0). -/
theorem respawn_fallback_commits_witness :
    ((MapPhase.drain Kind.gameObject westLoaded
        (exampleState (exampleMover 1 ObjectCellMoveState.MAP_OBJECT_CELL_MOVE_ACTIVE false)
          [7])).1.objs 7).position = ⟨-300, -300, 0, 0⟩
      ∧ (callsAbout 7 (MapPhase.drain Kind.gameObject westLoaded
        (exampleState (exampleMover 1 ObjectCellMoveState.MAP_OBJECT_CELL_MOVE_ACTIVE false)
          [7])).2).drop 2
          = [Call.Relocate Kind.gameObject 7 ⟨-300, -300, 0, 0⟩,
             Call.UpdatePositionData Kind.gameObject 7,
             Call.UpdateObjectVisibility Kind.gameObject 7 false] :=
  have h := respawn_fallback_commits Kind.gameObject westLoaded
    (exampleState (exampleMover 1 ObjectCellMoveState.MAP_OBJECT_CELL_MOVE_ACTIVE false) [7])
    7 (by decide) (by decide) (by decide) (by decide) (by decide)
    (Or.inr ⟨rfl, by decide⟩)
  ⟨h.1, h.2.2.1⟩

/-- C8, as stated, fails for the third drain: dynamic object 7 is queued on the map of the
phase, ACTIVE and in world, its cell relocation fails, and the only call of the drain is that
failed cell relocation; no respawn relocation is attempted. The respawn cell (-3, -3) is
loaded here, so a fallback would have succeeded. -/
theorem dynamic_object_respawn_counterexample :
    7 ∈ MapPhase.moveList Kind.dynamicObject
        (exampleState (exampleMover 1 ObjectCellMoveState.MAP_OBJECT_CELL_MOVE_ACTIVE false)
          [7]).phase
      ∧ ((exampleState (exampleMover 1 ObjectCellMoveState.MAP_OBJECT_CELL_MOVE_ACTIVE false)
          [7]).objs 7).map = some 1
      ∧ ((exampleState (exampleMover 1 ObjectCellMoveState.MAP_OBJECT_CELL_MOVE_ACTIVE false)
          [7]).objs 7)._moveState = ObjectCellMoveState.MAP_OBJECT_CELL_MOVE_ACTIVE
      ∧ ((exampleState (exampleMover 1 ObjectCellMoveState.MAP_OBJECT_CELL_MOVE_ACTIVE false)
          [7]).objs 7).inWorld = true
      ∧ MapPhase.cellRelocation Kind.dynamicObject westLoaded 7
          (MapPhase.newCell westLoaded
            (exampleState (exampleMover 1 ObjectCellMoveState.MAP_OBJECT_CELL_MOVE_ACTIVE false)
              [7]) 7) = false
      ∧ (MapPhase.MoveAllDynamicObjectsInMoveList westLoaded
          (exampleState (exampleMover 1 ObjectCellMoveState.MAP_OBJECT_CELL_MOVE_ACTIVE false)
            [7])).2 = [Call.DynamicObjectCellRelocation 7 ⟨1, 2⟩]
      ∧ (MapPhase.MoveAllDynamicObjectsInMoveList westLoaded
          (exampleState (exampleMover 1 ObjectCellMoveState.MAP_OBJECT_CELL_MOVE_ACTIVE false)
            [7])).2.all (fun ev => !ev.isRespawnRelocation) = true := by
  decide

/-- C8, amended: for an object queued on the map of the phase, ACTIVE and in world, whose
cell relocation fails, the creature drain and the game object drain call the respawn
relocation right after the failed cell relocation, before any other call about the object;
the dynamic object drain calls nothing after the failed cell relocation, attempts no respawn
relocation and leaves the object where it was. -/
theorem respawn_attempted_except_dynamic (k : Kind) (E : Collab) (s : State) (e : Guid)
    (hq : e ∈ MapPhase.moveList k s.phase)
    (hm : (s.objs e).map = some s.phase._map)
    (ha : (s.objs e)._moveState = ObjectCellMoveState.MAP_OBJECT_CELL_MOVE_ACTIVE)
    (hw : (s.objs e).inWorld = true)
    (hp : MapPhase.cellRelocation k E e (MapPhase.newCell E s e) = false) :
    (k = Kind.creature →
        (callsAbout e (MapPhase.drain k E s).2).take 2
          = [Call.CreatureCellRelocation e (MapPhase.newCell E s e),
             Call.CreatureRespawnRelocation e false])
      ∧ (k = Kind.gameObject →
        (callsAbout e (MapPhase.drain k E s).2).take 2
          = [Call.GameObjectCellRelocation e (MapPhase.newCell E s e),
             Call.GameObjectRespawnRelocation e false])
      ∧ (k = Kind.dynamicObject →
        callsAbout e (MapPhase.drain k E s).2
            = [Call.DynamicObjectCellRelocation e (MapPhase.newCell E s e)]
          ∧ (∀ ev, ev ∈ (MapPhase.drain k E s).2 → ev.isRespawnRelocation = false)
          ∧ ((MapPhase.drain k E s).1.objs e).position = (s.objs e).position) := by
  have hd := drain_mem k E s e hq
  rw [hd.1, hd.2]
  refine ⟨?_, ?_, ?_⟩
  · rintro rfl
    show (MapPhase.moveCreature E e s).2.take 2 = _
    cases hr : E.CreatureCellRelocation e (MapPhase.respawnCell E s e)
    · cases hpet : (s.objs e).isPet
      · rw [moveCreature_removed E e s hm ha hw hp hr hpet]; rfl
      · rw [moveCreature_petRemoved E e s hm ha hw hp hr hpet]; rfl
    · rw [moveCreature_respawned E e s hm ha hw hp hr]; rfl
  · rintro rfl
    show (MapPhase.moveGameObject E e s).2.take 2 = _
    cases hr : E.GameObjectCellRelocation e (MapPhase.respawnCell E s e)
    · rw [moveGameObject_removed E e s hm ha hw hp hr]; rfl
    · rw [moveGameObject_respawned E e s hm ha hw hp hr]; rfl
  · rintro rfl
    refine ⟨?_, ?_, ?_⟩
    · show (MapPhase.moveDynamicObject E e s).2 = _
      rw [moveDynamicObject_failed E e s hm ha hw hp]
    · intro ev hev
      exact forEach_all _ _ (moveDynamicObject_no_respawn E) _ _ ev hev
    · show ((MapPhase.moveDynamicObject E e s).1.objs e).position = _
      rw [moveDynamicObject_failed E e s hm ha hw hp]
      exact (setMoveState_read s e _).2.2.1

/-- A pet with no cell loaded: the creature drain calls the respawn relocation right after
the failed cell relocation. -/
theorem respawn_attempted_except_dynamic_witness :
    (callsAbout 7 (MapPhase.drain Kind.creature noneLoaded
        (exampleState (exampleMover 1 ObjectCellMoveState.MAP_OBJECT_CELL_MOVE_ACTIVE true)
          [7])).2).take 2
      = [Call.CreatureCellRelocation 7 ⟨1, 2⟩, Call.CreatureRespawnRelocation 7 false] :=
  (respawn_attempted_except_dynamic Kind.creature noneLoaded
    (exampleState (exampleMover 1 ObjectCellMoveState.MAP_OBJECT_CELL_MOVE_ACTIVE true) [7])
    7 (by decide) (by decide) (by decide) (by decide) (by decide)).1 rfl

/-! ### The order of the calls of `Update` -/

theorem moveCreature_stage (E : Collab) (x : Guid) (s : State) :
    ∀ ev, ev ∈ (MapPhase.moveCreature E x s).2 → ev.stage = 2 := by
  apply moveCreature_elim E x s (fun r => ∀ ev, ev ∈ r.2 → ev.stage = 2)
  · intro _; simp
  · intro _ _; simp
  · intro _ _ _ _
    by_cases hv : (s.objs x).isVehicle = true <;> simp [hv, Call.stage]
  · intro _ _ _ _ _; simp [Call.stage]
  · intro _ _ _ _ _ _; simp [Call.stage]
  · intro _ _ _ _ _ _; simp [Call.stage]

theorem moveGameObject_stage (E : Collab) (x : Guid) (s : State) :
    ∀ ev, ev ∈ (MapPhase.moveGameObject E x s).2 → ev.stage = 3 := by
  apply moveGameObject_elim E x s (fun r => ∀ ev, ev ∈ r.2 → ev.stage = 3)
  · intro _; simp
  · intro _ _; simp
  · intro _ _ _ _; simp [Call.stage]
  · intro _ _ _ _ _; simp [Call.stage]
  · intro _ _ _ _ _; simp [Call.stage]

theorem moveDynamicObject_stage (E : Collab) (x : Guid) (s : State) :
    ∀ ev, ev ∈ (MapPhase.moveDynamicObject E x s).2 → ev.stage = 4 := by
  apply moveDynamicObject_elim E x s (fun r => ∀ ev, ev ∈ r.2 → ev.stage = 4)
  · intro _; simp
  · intro _ _; simp
  · intro _ _ _ _; simp [Call.stage]
  · intro _ _ _ _; simp [Call.stage]

theorem updateSession_stage (E : Collab) (s_diff : Nat) (ref : Option Guid) (s : State) :
    ∀ ev, ev ∈ (MapPhase.updateSession E s_diff ref s).2 → ev.stage = 0 := by
  intro ev
  unfold MapPhase.updateSession
  cases ref with
  | none => simp
  | some player =>
    by_cases hw : (s.objs player).inWorld = true
    · simp only [hw, if_true, List.mem_singleton]
      rintro rfl
      rfl
    · simp [hw]

theorem visitActiveNonPlayer_skip (E : Collab) (obj : Guid) (s : State)
    (hw : (s.objs obj).inWorld = false) :
    MapPhase.visitActiveNonPlayer E (some obj) s = (s, []) := by
  simp [MapPhase.visitActiveNonPlayer, hw]

theorem visitActiveNonPlayer_visit (E : Collab) (obj : Guid) (s : State)
    (hw : (s.objs obj).inWorld = true) :
    MapPhase.visitActiveNonPlayer E (some obj) s
      = (E.VisitNearbyCellsOf obj s, [Call.VisitNearbyCellsOf obj]) := by
  simp [MapPhase.visitActiveNonPlayer, hw]

theorem visitActiveNonPlayer_stage (E : Collab) (ref : Option Guid) (s : State) :
    ∀ ev, ev ∈ (MapPhase.visitActiveNonPlayer E ref s).2 → ev.stage = 0 := by
  intro ev hev
  cases ref with
  | none => exact absurd hev (List.not_mem_nil ev)
  | some obj =>
    cases hw : (s.objs obj).inWorld
    · rw [visitActiveNonPlayer_skip E obj s hw] at hev
      exact absurd hev (List.not_mem_nil ev)
    · rw [visitActiveNonPlayer_visit E obj s hw] at hev
      rw [List.mem_singleton.mp hev]
      rfl

theorem visitOne_stage (E : Collab) (obj : Guid) (s : State) :
    ∀ ev, ev ∈ (MapPhase.visitOne E obj s).2 → ev.stage = 0 := by
  intro ev hev
  have : ev = Call.VisitNearbyCellsOf obj := by simpa [MapPhase.visitOne] using hev
  rw [this]
  rfl

theorem updatePlayerAndVisit_calls (E : Collab) (s_diff : Nat) (player : Guid) (s : State) :
    (MapPhase.updatePlayerAndVisit E s_diff player s).2
      = Call.playerUpdate player s_diff :: Call.VisitNearbyCellsOf player
          :: (match ((E.VisitNearbyCellsOf player
                (E.playerUpdate player s_diff s)).objs player).viewpoint with
              | some viewPoint => [Call.VisitNearbyCellsOf viewPoint]
              | none => []) := by
  unfold MapPhase.updatePlayerAndVisit
  cases h : ((E.VisitNearbyCellsOf player (E.playerUpdate player s_diff s)).objs
    player).viewpoint <;> simp [h]

theorem updatePlayerAndVisit_stage (E : Collab) (s_diff : Nat) (player : Guid) (s : State) :
    ∀ ev, ev ∈ (MapPhase.updatePlayerAndVisit E s_diff player s).2 → ev.stage = 0 := by
  intro ev
  rw [updatePlayerAndVisit_calls]
  cases ((E.VisitNearbyCellsOf player (E.playerUpdate player s_diff s)).objs player).viewpoint
  · simp only [List.mem_cons, List.not_mem_nil, or_false]
    rintro (rfl | rfl) <;> rfl
  · simp only [List.mem_cons, List.not_mem_nil, or_false]
    rintro (rfl | rfl | rfl) <;> rfl

theorem visitFarCreatures_stage (E : Collab) (player : Guid) (s : State) :
    ∀ ev, ev ∈ (MapPhase.visitFarCreatures E player s).2 → ev.stage = 0 := by
  intro ev
  unfold MapPhase.visitFarCreatures
  cases (s.objs player).inCombat
  · simp
  · simp only [if_true]
    exact forEach_all _ _ (visitOne_stage E) _ _ ev

theorem updatePlayer_skip (E : Collab) (s_diff : Nat) (player : Guid) (s : State)
    (hw : (s.objs player).inWorld = false) :
    MapPhase.updatePlayer E s_diff (some player) s = (s, []) := by
  simp [MapPhase.updatePlayer, hw]

theorem updatePlayer_run (E : Collab) (s_diff : Nat) (player : Guid) (s : State)
    (hw : (s.objs player).inWorld = true) :
    MapPhase.updatePlayer E s_diff (some player) s
      = ((MapPhase.visitFarCreatures E player
            (MapPhase.updatePlayerAndVisit E s_diff player s).1).1,
          (MapPhase.updatePlayerAndVisit E s_diff player s).2
            ++ (MapPhase.visitFarCreatures E player
              (MapPhase.updatePlayerAndVisit E s_diff player s).1).2) := by
  simp [MapPhase.updatePlayer, hw]

theorem updatePlayer_stage (E : Collab) (s_diff : Nat) (ref : Option Guid) (s : State) :
    ∀ ev, ev ∈ (MapPhase.updatePlayer E s_diff ref s).2 → ev.stage = 0 := by
  intro ev hev
  cases ref with
  | none => exact absurd hev (List.not_mem_nil ev)
  | some player =>
    cases hw : (s.objs player).inWorld
    · rw [updatePlayer_skip E s_diff player s hw] at hev
      exact absurd hev (List.not_mem_nil ev)
    · rw [updatePlayer_run E s_diff player s hw] at hev
      rcases List.mem_append.mp hev with h | h
      · exact updatePlayerAndVisit_stage E s_diff player s ev h
      · exact visitFarCreatures_stage E player _ ev h

theorem updateTransport_stage (E : Collab) (t_diff : Nat) (transport : Guid) (s : State) :
    ∀ ev, ev ∈ (MapPhase.updateTransport E t_diff transport s).2 → ev.stage = 1 := by
  intro ev hev
  unfold MapPhase.updateTransport at hev
  cases hw : (s.objs transport).inWorld
  · simp [hw] at hev
  · simp [hw] at hev
    rw [hev]
    rfl

theorem updateNonPlayers_stage (E : Collab) (t_diff s_diff : Nat) (s : State) :
    ∀ ev, ev ∈ (MapPhase.updateNonPlayers E t_diff s_diff s).2 → ev.stage = 0 := by
  intro ev
  unfold MapPhase.updateNonPlayers
  simp only [List.mem_append]
  rintro ((h | h) | h)
  · by_cases ht : t_diff ≠ 0
    · rw [if_pos ht] at h
      have : ev = Call.dynamicTreeUpdate t_diff := by simpa using h
      rw [this]
      rfl
    · rw [if_neg ht] at h
      exact absurd h (List.not_mem_nil ev)
  · exact forEach_all _ _ (updateSession_stage E s_diff) _ _ ev h
  · exact forEach_all _ _ (visitActiveNonPlayer_stage E) _ _ ev h

theorem stage_pairwise_of_const (l : List Call) (k : Nat) (h : ∀ ev, ev ∈ l → ev.stage = k) :
    l.Pairwise (fun a b => a.stage ≤ b.stage) :=
  List.pairwise_of_forall_mem_list (fun a ha b hb => by rw [h a ha, h b hb])

theorem stage_pairwise_append (l1 l2 : List Call) (k : Nat)
    (h1 : l1.Pairwise (fun a b => a.stage ≤ b.stage))
    (hle : ∀ ev, ev ∈ l1 → ev.stage ≤ k)
    (h2 : ∀ ev, ev ∈ l2 → ev.stage = k) :
    (l1 ++ l2).Pairwise (fun a b => a.stage ≤ b.stage)
      ∧ ∀ ev, ev ∈ l1 ++ l2 → ev.stage ≤ k := by
  constructor
  · rw [List.pairwise_append]
    exact ⟨h1, stage_pairwise_of_const l2 k h2,
      fun a ha b hb => by rw [h2 b hb]; exact hle a ha⟩
  · intro ev hev
    rcases List.mem_append.mp hev with h | h
    · exact hle ev h
    · exact le_of_eq (h2 ev h)

theorem stage_cons (m : Call) (l : List Call) (k : Nat) (hm : m.stage = k)
    (h : ∀ ev, ev ∈ l → ev.stage = k) : ∀ ev, ev ∈ m :: l → ev.stage = k := by
  intro ev hev
  rcases List.mem_cons.mp hev with h1 | h1
  · rw [h1, hm]
  · exact h ev h1

theorem stage_pairwise_segments (a b c d e f : List Call)
    (ha : ∀ ev, ev ∈ a → ev.stage = 0) (hb : ∀ ev, ev ∈ b → ev.stage = 0)
    (hc : ∀ ev, ev ∈ c → ev.stage = 1) (hd : ∀ ev, ev ∈ d → ev.stage = 2)
    (he : ∀ ev, ev ∈ e → ev.stage = 3) (hf : ∀ ev, ev ∈ f → ev.stage = 4) :
    (a ++ b ++ c ++ d ++ e ++ f).Pairwise (fun x y => x.stage ≤ y.stage) := by
  have h0 := stage_pairwise_of_const a 0 ha
  have h1 := stage_pairwise_append a b 0 h0 (fun ev hev => le_of_eq (ha ev hev)) hb
  have h2 := stage_pairwise_append _ c 1 h1.1
    (fun ev hev => le_trans (h1.2 ev hev) (Nat.zero_le 1)) hc
  have h3 := stage_pairwise_append _ d 2 h2.1
    (fun ev hev => le_trans (h2.2 ev hev) (by decide)) hd
  have h4 := stage_pairwise_append _ e 3 h3.1
    (fun ev hev => le_trans (h3.2 ev hev) (by decide)) he
  have h5 := stage_pairwise_append _ f 4 h4.1
    (fun ev hev => le_trans (h4.2 ev hev) (by decide)) hf
  exact h5.1

theorem MoveAllCreaturesInMoveList_stage (E : Collab) (s : State) :
    ∀ ev, ev ∈ Call.MoveAllCreaturesInMoveList :: (MapPhase.MoveAllCreaturesInMoveList E s).2 →
      ev.stage = 2 :=
  stage_cons _ _ 2 rfl (by
    unfold MapPhase.MoveAllCreaturesInMoveList
    exact forEach_all _ _ (moveCreature_stage E) _ _)

theorem MoveAllGameObjectsInMoveList_stage (E : Collab) (s : State) :
    ∀ ev, ev ∈ Call.MoveAllGameObjectsInMoveList
        :: (MapPhase.MoveAllGameObjectsInMoveList E s).2 → ev.stage = 3 :=
  stage_cons _ _ 3 rfl (by
    unfold MapPhase.MoveAllGameObjectsInMoveList
    exact forEach_all _ _ (moveGameObject_stage E) _ _)

theorem MoveAllDynamicObjectsInMoveList_stage (E : Collab) (s : State) :
    ∀ ev, ev ∈ Call.MoveAllDynamicObjectsInMoveList
        :: (MapPhase.MoveAllDynamicObjectsInMoveList E s).2 → ev.stage = 4 :=
  stage_cons _ _ 4 rfl (by
    unfold MapPhase.MoveAllDynamicObjectsInMoveList
    exact forEach_all _ _ (moveDynamicObject_stage E) _ _)

theorem drains_entered_in_order (x d1 d2 d3 : List Call) :
    List.Sublist
      [Call.MoveAllCreaturesInMoveList, Call.MoveAllGameObjectsInMoveList,
       Call.MoveAllDynamicObjectsInMoveList]
      (x ++ Call.MoveAllCreaturesInMoveList :: d1 ++ Call.MoveAllGameObjectsInMoveList :: d2
        ++ Call.MoveAllDynamicObjectsInMoveList :: d3) :=
  ((List.sublist_append_of_sublist_right
      (List.Sublist.cons₂ _ (List.nil_sublist d1))).append
        (List.Sublist.cons₂ _ (List.nil_sublist d2))).append
          (List.Sublist.cons₂ _ (List.nil_sublist d3))

/-- C9: the calls of one `Update` are in the order of its steps, whatever the registries
hold. With `Call.stage` giving 0 to the calls up to the player loop (among them every
`VisitNearbyCellsOf`), 1 to the transport updates and 2, 3, 4 to what the creature, game
object and dynamic object drains do, the stage never decreases along the trace: no
transport update precedes a nearby-cell visit, every call of a drain follows every
transport update, and the drains run as creatures, game objects, dynamic objects. The
three drains are entered, in that order, in every run. -/
theorem update_calls_in_order (E : Collab) (t_diff s_diff : Nat) (s : State) :
    (MapPhase.Update E t_diff s_diff s).2.Pairwise (fun a b => a.stage ≤ b.stage)
      ∧ List.Sublist
          [Call.MoveAllCreaturesInMoveList, Call.MoveAllGameObjectsInMoveList,
           Call.MoveAllDynamicObjectsInMoveList]
          (MapPhase.Update E t_diff s_diff s).2 := by
  unfold MapPhase.Update
  constructor
  · apply stage_pairwise_segments
    · exact updateNonPlayers_stage E t_diff s_diff s
    · exact forEach_all _ _ (updatePlayer_stage E s_diff) _ _
    · exact forEach_all _ _ (updateTransport_stage E t_diff) _ _
    · exact MoveAllCreaturesInMoveList_stage E _
    · exact MoveAllGameObjectsInMoveList_stage E _
    · exact MoveAllDynamicObjectsInMoveList_stage E _
  · exact drains_entered_in_order _ _ _ _

/-! ### The far creatures in combat with a player -/

